import Mathlib

/-!
# Vision validate plugin service — verification development

A shallow embedding of the render-and-validate orchestration pipeline of the
vision validate plugin service (TypeScript, `src/index.ts`, two service
variants), together with theorems about its public behaviour.

Modelling conventions:
* Machine effects (filesystem existence, HTTP fetch outcome, the rendering
  child process, the `sharp` image library, `JSON.parse`, the exact wall
  clock) are passed in explicitly as oracle values, so every handler is a
  total function of its request and its environment.
* JavaScript falsiness of optional strings (`!x` true for `undefined` and
  for `""`) is modelled by `getStr` returning `none` in exactly those cases.
* JSON values that the service builds before `JSON.stringify` are modelled
  by the inductive type `Jx`; fields whose value would be `undefined` are
  omitted, mirroring `JSON.stringify` dropping them.
* Fallible code (`try`/`catch`) is modelled with `Except String`, the
  caught error message being the thrown `error.message`.
-/

namespace VisionValidate

/-- Raw byte payloads (the contents of a `Buffer`); base64 encoding at the
wire is treated as a transparent injective serialization. -/
abbrev Bytes := List Nat

/-- JSON values as built by the service before serialization. -/
inductive Jx where
  | null
  | bool (b : Bool)
  | num (n : Int)
  | str (s : String)
  | arr (xs : List Jx)
  | obj (fields : List (String × Jx))

/-- Property access `j.k` on a parsed JSON value: `none` models the
JavaScript `undefined` (non-object receiver or absent key). -/
def jGet (j : Jx) (k : String) : Option Jx :=
  match j with
  | .obj fields => fields.lookup k
  | _ => none

/-- A JSON object field that is omitted when its value is `undefined`,
mirroring `JSON.stringify` dropping `undefined`-valued properties. -/
def optField (k : String) (v : Option Jx) : List (String × Jx) :=
  match v with
  | some x => [(k, x)]
  | none => []

/-- JavaScript string falsiness: `none` for `undefined`/`null` and for the
empty string, otherwise the string itself. -/
def getStr (x : Option String) : Option String :=
  match x with
  | none => none
  | some s => if s = "" then none else some s

/-- `${x}` template interpolation of a possibly-undefined string:
JavaScript prints the literal text `undefined`. -/
def optStr (x : Option String) : String :=
  match x with
  | some s => s
  | none => "undefined"

/-- `path.join(a, b)` (both components known to be strings). -/
def pjoin (a b : String) : String := a ++ "/" ++ b

/-! ## ViewSetNormalizer (`normalizeViews`) -/

/-- `ALLOWED_VIEWS` — the closed set of camera views, in insertion order
(JavaScript `Set` iteration preserves insertion order). -/
def ALLOWED_VIEWS : List String := ["iso", "front", "back", "left", "right", "top", "bottom"]

/-- `ALLOWED_VIEW_LIST = Array.from(ALLOWED_VIEWS).join(', ')`. -/
def ALLOWED_VIEW_LIST : String := String.intercalate ", " ALLOWED_VIEWS

/-- Return type of `normalizeViews`. -/
structure NormalizeResult where
  views : List String
  error : Option String
deriving Repr, DecidableEq

/-- The `seen`-set deduplication loop inside `normalizeViews`: walk the
filtered list, keeping each entry not already in `seen`. -/
def dedupGo (seen : List String) : List String → List String
  | [] => []
  | v :: rest =>
    if seen.contains v then dedupGo seen rest
    else v :: dedupGo (v :: seen) rest

/-- `normalizeViews(requested?: string[])` — validates and deduplicates the
requested view names against `ALLOWED_VIEWS`. -/
def normalizeViews (requested : Option (List String)) : NormalizeResult :=
  match requested with
  | none =>
    { views := [],
      error := some ("views is required and must include at least one of: " ++ ALLOWED_VIEW_LIST) }
  | some l =>
    if l.length = 0 then
      { views := [],
        error := some ("views is required and must include at least one of: " ++ ALLOWED_VIEW_LIST) }
    else
      let filtered := l.filter (fun v => ALLOWED_VIEWS.contains v)
      if filtered.length = 0 then
        { views := [],
          error := some ("No valid views provided. Allowed views: " ++ ALLOWED_VIEW_LIST) }
      else
        { views := dedupGo [] filtered, error := none }

/-- Specification-side statement of "deduplicated preserving first-occurrence
order": keep the head, then recursively dedup the tail with all copies of the
head removed. -/
def dedupFirstSpec : List String → List String
  | [] => []
  | x :: xs => x :: dedupFirstSpec (xs.filter (fun y => y ≠ x))
termination_by l => l.length
decreasing_by
  simpa using Nat.lt_succ_of_le (List.length_filter_le _ _)

theorem dedupGo_cons_mem {v : String} {seen rest : List String} (hv : v ∈ seen) :
    dedupGo seen (v :: rest) = dedupGo seen rest := by
  simp only [dedupGo]
  rw [if_pos (by simpa using hv)]

theorem dedupGo_cons_not_mem {v : String} {seen rest : List String} (hv : v ∉ seen) :
    dedupGo seen (v :: rest) = v :: dedupGo (v :: seen) rest := by
  simp only [dedupGo]
  rw [if_neg (by simpa using hv)]

theorem dedupGo_eq_spec (l : List String) : ∀ seen : List String,
    dedupGo seen l = dedupFirstSpec (l.filter (fun v => !seen.contains v)) := by
  induction l with
  | nil => intro seen; simp [dedupGo, dedupFirstSpec]
  | cons v rest ih =>
    intro seen
    by_cases hv : v ∈ seen
    · rw [dedupGo_cons_mem hv]
      have hfil : (v :: rest).filter (fun u => !seen.contains u)
          = rest.filter (fun u => !seen.contains u) := by
        simp [List.filter_cons, hv]
      rw [hfil, ih]
    · rw [dedupGo_cons_not_mem hv]
      have hfil : (v :: rest).filter (fun u => !seen.contains u)
          = v :: rest.filter (fun u => !seen.contains u) := by
        simp [List.filter_cons, hv]
      rw [hfil, dedupFirstSpec, ih (v :: seen)]
      congr 1
      rw [List.filter_filter]
      congr 1
      apply List.filter_congr
      intro u _
      by_cases huv : u = v
      · subst huv; simp [hv]
      · simp [huv]

theorem mem_dedupGo {v : String} (l : List String) : ∀ seen : List String,
    v ∈ dedupGo seen l ↔ v ∈ l ∧ v ∉ seen := by
  induction l with
  | nil => intro seen; simp [dedupGo]
  | cons w rest ih =>
    intro seen
    by_cases hw : w ∈ seen
    · rw [dedupGo_cons_mem hw, ih]
      simp only [List.mem_cons]
      constructor
      · rintro ⟨hm, hns⟩; exact ⟨Or.inr hm, hns⟩
      · rintro ⟨hm | hm, hns⟩
        · exact absurd (hm.symm ▸ hw : v ∈ seen) hns
        · exact ⟨hm, hns⟩
    · rw [dedupGo_cons_not_mem hw]
      simp only [List.mem_cons, ih]
      constructor
      · rintro (rfl | ⟨hm, hns⟩)
        · exact ⟨Or.inl rfl, hw⟩
        · simp only [List.mem_cons, not_or] at hns
          exact ⟨Or.inr hm, hns.2⟩
      · rintro ⟨rfl | hm, hns⟩
        · exact Or.inl rfl
        · by_cases hvw : v = w
          · exact Or.inl hvw
          · exact Or.inr ⟨hm, by simp [List.mem_cons, hvw, hns]⟩

theorem nodup_dedupGo (l : List String) : ∀ seen : List String,
    (dedupGo seen l).Nodup := by
  induction l with
  | nil => intro seen; simp [dedupGo]
  | cons w rest ih =>
    intro seen
    by_cases hw : w ∈ seen
    · rw [dedupGo_cons_mem hw]; exact ih seen
    · rw [dedupGo_cons_not_mem hw, List.nodup_cons]
      refine ⟨fun hmem => ?_, ih (w :: seen)⟩
      rw [mem_dedupGo] at hmem
      exact hmem.2 (List.mem_cons_self w seen)

theorem sublist_dedupGo (l : List String) : ∀ seen : List String,
    (dedupGo seen l).Sublist l := by
  induction l with
  | nil => intro seen; simp [dedupGo]
  | cons w rest ih =>
    intro seen
    by_cases hw : w ∈ seen
    · rw [dedupGo_cons_mem hw]
      exact (ih seen).cons w
    · rw [dedupGo_cons_not_mem hw]
      exact (ih (w :: seen)).cons₂ w

/-- C2: For every optional input list of view-name strings, the view
normalizer returns an error naming the full allowed-view enumeration when the
input is absent or empty, silently drops every entry not in the closed
allowed set (returning an error naming the enumeration if nothing remains),
and otherwise returns the recognized entries deduplicated preserving
first-occurrence order (`dedupFirstSpec`); the function is pure (it is a
plain function of its argument). -/
theorem normalizeViews_contract (requested : Option (List String)) :
    ((requested = none ∨ requested = some []) →
      normalizeViews requested =
        { views := [],
          error := some ("views is required and must include at least one of: "
            ++ ALLOWED_VIEW_LIST) }) ∧
    (∀ l, requested = some l → l ≠ [] →
      ((l.filter (fun v => ALLOWED_VIEWS.contains v) = [] →
          normalizeViews requested =
            { views := [],
              error := some ("No valid views provided. Allowed views: "
                ++ ALLOWED_VIEW_LIST) }) ∧
        (l.filter (fun v => ALLOWED_VIEWS.contains v) ≠ [] →
          (normalizeViews requested).error = none ∧
          (normalizeViews requested).views
            = dedupFirstSpec (l.filter (fun v => ALLOWED_VIEWS.contains v)) ∧
          (normalizeViews requested).views.Nodup ∧
          (normalizeViews requested).views.Sublist
            (l.filter (fun v => ALLOWED_VIEWS.contains v)) ∧
          ∀ v, v ∈ (normalizeViews requested).views
            ↔ (v ∈ l ∧ ALLOWED_VIEWS.contains v = true)))) := by
  constructor
  · rintro (rfl | rfl) <;> simp [normalizeViews]
  · rintro l rfl hl
    have h1 : ¬ l.length = 0 := by simpa [List.length_eq_zero] using hl
    constructor
    · intro hfil
      simp only [normalizeViews]
      rw [if_neg h1, if_pos (show (l.filter (fun v => ALLOWED_VIEWS.contains v)).length = 0 by
        rw [hfil]; rfl)]
    · intro hfil
      have h2 : ¬ (l.filter (fun v => ALLOWED_VIEWS.contains v)).length = 0 := by
        simpa [List.length_eq_zero] using hfil
      have hnv : normalizeViews (some l)
          = { views := dedupGo [] (l.filter (fun v => ALLOWED_VIEWS.contains v)),
              error := none } := by
        simp only [normalizeViews]
        rw [if_neg h1, if_neg h2]
      rw [hnv]
      refine ⟨rfl, ?_, nodup_dedupGo _ _, sublist_dedupGo _ _, ?_⟩
      · rw [dedupGo_eq_spec]
        simp
      · intro v
        rw [mem_dedupGo]
        simp [List.mem_filter]

/-- Witness for `normalizeViews_contract`: the testable-property example from
the specification — input `[top, TOP, top, front]` yields `[top, front]`
(the unrecognized `TOP` dropped, the duplicate `top` removed, order kept). -/
theorem normalizeViews_contract_witness :
    (normalizeViews (some ["top", "TOP", "top", "front"])).error = none ∧
    (normalizeViews (some ["top", "TOP", "top", "front"])).views = ["top", "front"] := by
  have h := ((normalizeViews_contract (some ["top", "TOP", "top", "front"])).2
      ["top", "TOP", "top", "front"] rfl (by decide)).2 (by decide)
  exact ⟨h.1, by decide⟩

/-! ## ResponseInterpreter (`parseVisionResponse`)

The raw model text is scanned with the regular expression
`/(three backticks)(?:json)?\s*([\s\S]*?)(three backticks)/`: the match
starts at the first fence that has a closing fence, the optional literal
`json` tag is consumed greedily, and the lazy group ends at the next fence.
`findFence` returns the index of the first fence occurrence, which gives
exactly the leftmost-match semantics of the JavaScript regex engine. -/

/-- The backtick character (code 96), written by code point. -/
def backtickChar : Char := Char.ofNat 96

/-- The three-backtick code fence delimiter of the regex. -/
def fenceChars : List Char := [backtickChar, backtickChar, backtickChar]

/-- The optional `json` language tag of the regex. -/
def jsonTagChars : List Char := ['j', 's', 'o', 'n']

/-- Index of the first occurrence of a three-backtick fence. -/
def findFence : List Char → Option Nat
  | [] => none
  | c :: rest =>
    if fenceChars.isPrefixOf (c :: rest) then some 0
    else (findFence rest).map (· + 1)

/-- The interior of the first fenced block (the text strictly between the
first fence and the next fence after it), when both exist. -/
def extractFenced (raw : List Char) : Option (List Char) :=
  match findFence raw with
  | none => none
  | some i =>
    match findFence (raw.drop (i + 3)) with
    | none => none
    | some j => some ((raw.drop (i + 3)).take j)

/-- The greedy `(?:json)?` of the regex: consume a literal `json` tag at the
start of the interior when present. -/
def stripJsonTag (cs : List Char) : List Char :=
  if jsonTagChars.isPrefixOf cs then cs.drop 4 else cs

/-- JavaScript whitespace as trimmed by `String.prototype.trim` (the common
ASCII cases). -/
def isJsWhitespace (c : Char) : Bool :=
  c == ' ' || c == '\t' || c == '\n' || c == '\r' || c == '\x0b' || c == '\x0c'

/-- JavaScript `.trim()`: drop whitespace from both ends. -/
def trimJs (cs : List Char) : List Char :=
  ((cs.dropWhile isJsWhitespace).reverse.dropWhile isJsWhitespace).reverse

/-- `jsonStr` as computed by `parseVisionResponse`: the trimmed, tag-stripped
interior of the first fenced block if the regex matches, else the raw text
verbatim. -/
def candidateText (raw : String) : String :=
  match extractFenced raw.data with
  | some interior => String.mk (trimJs (stripJsonTag interior))
  | none => raw

/-- The fallback verdict object returned when `JSON.parse` fails. -/
def fallbackVerdict (raw : String) : Jx :=
  Jx.obj [("verdict", Jx.str "unknown"), ("confidence", Jx.null),
          ("summary", Jx.str raw), ("issues", Jx.arr []),
          ("recommendations", Jx.arr [])]

/-- `parseVisionResponse(raw)` — `parse` is the external `JSON.parse`,
returning `none` exactly when it would throw. -/
def parseVisionResponse (parse : String → Option Jx) (raw : String) : Jx :=
  match parse (candidateText raw) with
  | some v => v
  | none => fallbackVerdict raw

theorem findFence_not_fence {c : Char} {rest : List Char} (hc : c ≠ backtickChar) :
    findFence (c :: rest) = (findFence rest).map (· + 1) := by
  simp only [findFence]
  rw [if_neg]
  simp only [fenceChars, List.isPrefixOf, Bool.and_eq_true, beq_iff_eq]
  rintro ⟨h, -⟩
  exact hc h.symm

theorem findFence_fence (x : List Char) : findFence (fenceChars ++ x) = some 0 := by
  simp [findFence, fenceChars, List.isPrefixOf]

theorem findFence_append (pre : List Char) (tail : List Char)
    (h : backtickChar ∉ pre) :
    findFence (pre ++ tail) = (findFence tail).map (· + pre.length) := by
  induction pre with
  | nil => cases hf : findFence tail <;> simp [hf]
  | cons c pre ih =>
    have hc : c ≠ backtickChar := fun hcb => h (hcb ▸ List.mem_cons_self c pre)
    have hpre : backtickChar ∉ pre := fun hm => h (List.mem_cons_of_mem c hm)
    rw [List.cons_append, findFence_not_fence hc, ih hpre]
    cases hf : findFence tail <;> simp [hf, Nat.add_assoc]

theorem extractFenced_concat (pre interior post : List Char)
    (hpre : backtickChar ∉ pre) (hint : backtickChar ∉ interior) :
    extractFenced (pre ++ (fenceChars ++ (interior ++ (fenceChars ++ post))))
      = some interior := by
  have h1 : findFence (pre ++ (fenceChars ++ (interior ++ (fenceChars ++ post))))
      = some pre.length := by
    rw [findFence_append _ _ hpre, findFence_fence]
    simp
  have hdrop : (pre ++ (fenceChars ++ (interior ++ (fenceChars ++ post)))).drop
      (pre.length + 3) = interior ++ (fenceChars ++ post) := by
    rw [← List.append_assoc]
    exact List.drop_left' (by simp [fenceChars])
  have h2 : findFence (interior ++ (fenceChars ++ post)) = some interior.length := by
    rw [findFence_append _ _ hint, findFence_fence]
    simp
  simp only [extractFenced, h1, hdrop, h2]
  rw [List.take_left]

theorem stripJsonTag_tagged (body : List Char) :
    stripJsonTag (jsonTagChars ++ body) = body := by
  have hp : jsonTagChars.isPrefixOf (jsonTagChars ++ body) = true := by
    simp
  rw [stripJsonTag, if_pos hp]
  exact List.drop_left' (by simp [jsonTagChars])

theorem candidateText_tagged (raw : String) (pre body post : List Char)
    (hraw : raw.data = pre ++ (fenceChars ++ (jsonTagChars ++ body
      ++ (fenceChars ++ post))))
    (hpre : backtickChar ∉ pre) (hbody : backtickChar ∉ body) :
    candidateText raw = String.mk (trimJs body) := by
  have hint : backtickChar ∉ jsonTagChars ++ body := by
    intro hm
    rcases List.mem_append.mp hm with hm | hm
    · revert hm; decide
    · exact hbody hm
  have hx : extractFenced raw.data = some (jsonTagChars ++ body) := by
    rw [hraw, show jsonTagChars ++ body ++ (fenceChars ++ post)
      = (jsonTagChars ++ body) ++ (fenceChars ++ post) by simp [List.append_assoc]]
    exact extractFenced_concat pre (jsonTagChars ++ body) post hpre hint
  simp only [candidateText, hx, stripJsonTag_tagged]

theorem candidateText_untagged (raw : String) (pre body post : List Char)
    (hraw : raw.data = pre ++ (fenceChars ++ (body ++ (fenceChars ++ post))))
    (hpre : backtickChar ∉ pre) (hbody : backtickChar ∉ body)
    (hnotag : jsonTagChars.isPrefixOf body = false) :
    candidateText raw = String.mk (trimJs body) := by
  have hx : extractFenced raw.data = some body := by
    rw [hraw]
    exact extractFenced_concat pre body post hpre hbody
  have hs : stripJsonTag body = body := by
    rw [stripJsonTag, if_neg (by simp [hnotag])]
  simp only [candidateText, hx, hs]

/-- C5: For every raw backend text, the response interpreter extracts the
interior of a fenced code block (with or without a `json` language tag) when
one is present and otherwise uses the raw text verbatim, parses that
candidate, returns the parsed value on success, and on parse failure returns
exactly the fallback verdict (`unknown`, null confidence, summary = entire
raw text, empty issues and recommendations); being a total function, it
never raises. -/
theorem parseVisionResponse_contract (parse : String → Option Jx) (raw : String) :
    (∀ v, parse (candidateText raw) = some v → parseVisionResponse parse raw = v) ∧
    (parse (candidateText raw) = none →
      parseVisionResponse parse raw =
        Jx.obj [("verdict", Jx.str "unknown"), ("confidence", Jx.null),
                ("summary", Jx.str raw), ("issues", Jx.arr []),
                ("recommendations", Jx.arr [])]) ∧
    (extractFenced raw.data = none → candidateText raw = raw) ∧
    (∀ pre body post,
      raw.data = pre ++ (fenceChars ++ (jsonTagChars ++ body ++ (fenceChars ++ post))) →
      backtickChar ∉ pre → backtickChar ∉ body →
      candidateText raw = String.mk (trimJs body)) ∧
    (∀ pre body post,
      raw.data = pre ++ (fenceChars ++ (body ++ (fenceChars ++ post))) →
      backtickChar ∉ pre → backtickChar ∉ body →
      jsonTagChars.isPrefixOf body = false →
      candidateText raw = String.mk (trimJs body)) := by
  refine ⟨?_, ?_, ?_, ?_, ?_⟩
  · intro v hv
    rw [parseVisionResponse, hv]
  · intro hn
    rw [parseVisionResponse, hn]
    rfl
  · intro hn
    rw [candidateText, hn]
  · intro pre body post hraw hpre hbody
    exact candidateText_tagged raw pre body post hraw hpre hbody
  · intro pre body post hraw hpre hbody hnotag
    exact candidateText_untagged raw pre body post hraw hpre hbody hnotag

/-- A concrete stand-in for `JSON.parse`: succeeds only on the exact text
`{"verdict":"pass"}`. -/
def parseStub (s : String) : Option Jx :=
  if s = "\x7b\"verdict\":\"pass\"\x7d" then some (Jx.obj [("verdict", Jx.str "pass")])
  else none

/-- Witness for `parseVisionResponse_contract`: a fenced `json`-tagged block
is extracted and parsed; the raw text `not json at all` yields the fallback
verdict with the whole text as summary. -/
theorem parseVisionResponse_contract_witness :
    parseVisionResponse parseStub "Sure! ```json\n\x7b\"verdict\":\"pass\"\x7d\n``` done"
      = Jx.obj [("verdict", Jx.str "pass")] ∧
    parseVisionResponse parseStub "not json at all"
      = Jx.obj [("verdict", Jx.str "unknown"), ("confidence", Jx.null),
                ("summary", Jx.str "not json at all"), ("issues", Jx.arr []),
                ("recommendations", Jx.arr [])] := by
  constructor
  · have h := parseVisionResponse_contract parseStub
      "Sure! ```json\n\x7b\"verdict\":\"pass\"\x7d\n``` done"
    have hc : candidateText "Sure! ```json\n\x7b\"verdict\":\"pass\"\x7d\n``` done"
        = "\x7b\"verdict\":\"pass\"\x7d" := by
      rw [h.2.2.2.1 "Sure! ".data "\n\x7b\"verdict\":\"pass\"\x7d\n".data " done".data
        (by decide) (by decide) (by decide)]
      decide
    exact h.1 _ (by rw [hc]; rfl)
  · have h := parseVisionResponse_contract parseStub "not json at all"
    have hc : candidateText "not json at all" = "not json at all" :=
      h.2.2.1 (by decide)
    exact h.2.1 (by rw [hc]; rfl)

/-! ## ArtifactFetcher (`fetch3mfFile`) -/

/-- Service configuration read from the process environment at startup. -/
structure Config where
  WORK_DIR : String
  API_KEY : Option String
  BACKEND_API_KEY : Option String
  OPENAI_API_KEY : Option String
  GEMINI_API_KEY : Option String

/-- A settled transport response (`fetch` resolved). -/
structure FetchResponseEv where
  ok : Bool
  status : Nat
  statusText : String

/-- What the network did for this request: a settled response, or a
transport-level exception with its message. -/
inductive FetchEvent where
  | response (r : FetchResponseEv)
  | exception (msg : String)

/-- The network/URL oracle for one `fetch3mfFile` call. `urlBasename` is the
final path segment of `new URL(url).pathname`; `none` means the URL is
invalid and the `URL` constructor throws. -/
structure FetchOracle where
  urlBasename : Option String
  event : FetchEvent

/-- `Fetch3mfResult` as in the source. -/
structure Fetch3mfResult where
  success : Bool
  localPath : Option String
  error : Option String
  url : String
  statusCode : Option Nat
deriving Repr, DecidableEq

/-- Node error message for `path.join(..., undefined, ...)`. -/
def pathTypeErrorMsg : String :=
  "The \"path\" argument must be of type string. Received undefined"

/-- Node error message for an invalid URL given to the `URL` constructor. -/
def invalidUrlMsg : String := "Invalid URL"

/-- Outbound headers for the artifact fetch: when a backend credential is
configured it is attached both as a custom header and as a bearer token. -/
def fetchHeaders (cfg : Config) : List (String × String) :=
  match cfg.BACKEND_API_KEY with
  | some k => [("X-API-Key", k), ("Authorization", "Bearer " ++ k)]
  | none => []

/-- `fetch3mfFile(artifact3mfUrl, sessionId)`. The whole body runs in a
`try`; a thrown error is caught and returned as a failure outcome carrying
the exception message and no status code. A missing (undefined) session id
reaches `path.join` and throws there. -/
def fetch3mfFile (cfg : Config) (o : FetchOracle) (artifact3mfUrl : String)
    (sessionId : Option String) : Fetch3mfResult :=
  let tryBody : Except String Fetch3mfResult :=
    match o.urlBasename with
    | none => .error invalidUrlMsg
    | some fileName =>
      match o.event with
      | .exception msg => .error msg
      | .response r =>
        if r.ok = false then
          .ok { success := false, localPath := none,
                error := some ("HTTP " ++ toString r.status ++ " " ++ r.statusText),
                url := artifact3mfUrl, statusCode := some r.status }
        else
          match sessionId with
          | none => .error pathTypeErrorMsg
          | some sid =>
            .ok { success := true,
                  localPath := some (pjoin (pjoin cfg.WORK_DIR sid) fileName),
                  error := none, url := artifact3mfUrl, statusCode := none }
  match tryBody with
  | .ok r => r
  | .error msg =>
    { success := false, localPath := none, error := some msg,
      url := artifact3mfUrl, statusCode := none }

/-! ## RenderSupervisor (`renderWithBlender`) -/

/-- One produced frame record (`{ name, path, viewName }`). -/
structure RenderedImage where
  name : String
  path : String
  viewName : String
deriving Repr, DecidableEq

/-- Which of the two racing callbacks fired: the 300-second timeout, or the
child process `close` event with its exit code. -/
inductive RenderEvent where
  | timedOut
  | closed (code : Int)

/-- Result of one `renderWithBlender` invocation, together with the signal
sent to the child process if the supervisor killed it. -/
structure RenderRun where
  killSignal : Option String
  success : Bool
  images : List RenderedImage
deriving Repr, DecidableEq

/-- Default views when the caller passes none (the `/validate` flow). -/
def DEFAULT_RENDER_VIEWS : List String := ["iso", "front", "right", "top", "bottom"]

/-- The expected output file path for one requested view. -/
def expectedImagePath (outputDir view : String) : String :=
  pjoin outputDir ("preview_" ++ view ++ ".png")

/-- `renderWithBlender(model3mfPath, outputDir, views)`; `fsExists` is the
filesystem-existence oracle (`fs.existsSync`), `ev` which callback fired.
On `close`, the output directory is scanned for `preview_<view>.png` per
requested view; the exit code is not consulted. -/
def renderWithBlender (fsExists : String → Bool) (model3mfPath outputDir : String)
    (views : List String) (ev : RenderEvent) : RenderRun :=
  if fsExists model3mfPath = false then
    { killSignal := none, success := false, images := [] }
  else
    match ev with
    | .timedOut => { killSignal := some "SIGTERM", success := false, images := [] }
    | .closed _code =>
      let images := (views.map (fun view =>
        ({ name := "preview_" ++ view ++ ".png",
           path := expectedImagePath outputDir view,
           viewName := view } : RenderedImage))).filter
        (fun img => fsExists img.path)
      { killSignal := none, success := decide (images.length > 0), images := images }

/-! ## ImagePostProcessor (`convertToJpeg`) -/

/-- The image environment: raw file bytes on disk, and the `sharp` JPEG
pipeline — `sharpJpeg path size` is the compressed output buffer, `none`
when `sharp` is unavailable or errors. -/
structure ImgEnv where
  readFile : String → Bytes
  sharpJpeg : String → Option Nat → Option Bytes

/-- `convertToJpeg(pngPath, size?)`: compress (optionally resized into a
square of `size`) at fixed quality; on any failure fall back to the raw
file bytes unmodified. -/
def convertToJpeg (env : ImgEnv) (pngPath : String) (size : Option Nat) : Bytes :=
  match env.sharpJpeg pngPath size with
  | some b => b
  | none => env.readFile pngPath

/-! ## RequestOrchestrator — envelope, requests, oracles -/

/-- `PluginArtifact` as in the source; `base64` holds the bytes that are
base64-encoded at the wire. -/
structure PluginArtifact where
  name : String
  type : String
  base64 : Bytes
  mimeType : String
deriving Repr, DecidableEq

/-- `PluginResult` — the result envelope: success flag, token-usage count,
artifact list, result payload (serialized by `JSON.stringify` at the wire),
optional error. -/
structure PluginResult where
  ok : Bool
  tokensUsed : Nat
  artifacts : List PluginArtifact
  result : Jx
  error : Option String

/-- A handler's envelope together with whether it attempted the best-effort
`fs.rmSync` removal of the session's render output directory. -/
structure HandlerOutput where
  response : PluginResult
  cleaned : Bool

/-- The `context` group of a request body. -/
structure ReqContext where
  sessionId : Option String
  artifact3mfUrl : Option String
  step : Option Int

/-- The optional `apiKeys` group of a validation request. -/
structure ApiKeysGroup where
  OPENAI_API_KEY : Option String
  GEMINI_API_KEY : Option String

/-- The `args` group of a validation request. -/
structure ValidateArgs where
  part : Option String
  partDescription : Option String
  focus : Option String
  checks : Option (List String)

/-- `ValidationRequest` body. -/
structure ValidationRequest where
  context : ReqContext
  args : ValidateArgs
  apiKeys : Option ApiKeysGroup

/-- The `args` group of a render-preview request. -/
structure RenderArgs where
  part : Option String
  views : Option (List String)

/-- `RenderRequest` body. -/
structure RenderRequest where
  context : ReqContext
  args : RenderArgs

/-- `reqKey || envKey` then truthiness: the effective credential, `none`
when the final value is falsy. -/
def pickKey (reqKey envKey : Option String) : Option String :=
  match getStr reqKey with
  | some k => some k
  | none => getStr envKey

/-- Oracles for one `/validate` request: network, filesystem, render child
process, image library, each vision backend's call outcome (`.error` models
a thrown exception, e.g. a non-success Gemini response), `JSON.parse`, the
`Date.now()` tag of the output directory, and whether `fs.rmSync` throws. -/
structure VOracles where
  fetch : FetchOracle
  fsExists : String → Bool
  renderEvent : RenderEvent
  img : ImgEnv
  gemini : Except String (String × Nat)
  openai : Except String (String × Nat)
  parse : String → Option Jx
  nowTag : String
  rmThrows : Bool

/-- Oracles for one `/render` request. -/
structure ROracles where
  fetch : FetchOracle
  fsExists : String → Bool
  renderEvent : RenderEvent
  img : ImgEnv
  nowTag : String
  rmThrows : Bool

/-- The common failure envelope `{ ok:false, tokensUsed:0, artifacts:[],
result: JSON({error: msg}), error: msg }`. -/
def errEnvelope (msg : String) : PluginResult :=
  { ok := false, tokensUsed := 0, artifacts := [],
    result := Jx.obj [("error", Jx.str msg)], error := some msg }

/-- The result payload of a successful validation: the parsed verdict fields
(each omitted when `undefined`, as `JSON.stringify` does) plus the validated
part name. -/
def validateResultPayload (parsed : Jx) (part : String) : Jx :=
  Jx.obj (optField "verdict" (jGet parsed "verdict")
    ++ optField "confidence" (jGet parsed "confidence")
    ++ optField "summary" (jGet parsed "summary")
    ++ optField "issues" (jGet parsed "issues")
    ++ optField "recommendations" (jGet parsed "recommendations")
    ++ [("validatedPart", Jx.str part)])

/-- The `try` block of the `/validate` handler (variant 1 of the service).
The vision prompt text is built from part/description/focus/checks and
passed to the backend; it does not influence the modelled outputs, so it is
absorbed into the backend-call oracles. `.error` is an exception reaching
the handler's `catch`. -/
def validateTry (cfg : Config) (body : ValidationRequest) (o : VOracles) :
    Except String HandlerOutput :=
  match getStr body.args.part with
  | none => .ok { response := errEnvelope "part is required", cleaned := false }
  | some part =>
    match getStr body.context.artifact3mfUrl with
    | none => .ok { response := errEnvelope "artifact3mfUrl is required", cleaned := false }
    | some artifact3mfUrl =>
      -- `fetchResult`, `renderResult` and the credential values are pure
      -- values bound once in the source; they are written out at each use
      -- site here
      if (fetch3mfFile cfg o.fetch artifact3mfUrl body.context.sessionId).success
          = false then
        -- both arms of the source's ternary produce this same string
        let errorDetail := "Failed to fetch 3MF: "
          ++ optStr (fetch3mfFile cfg o.fetch artifact3mfUrl body.context.sessionId).error
          ++ " from " ++ (fetch3mfFile cfg o.fetch artifact3mfUrl body.context.sessionId).url
        .ok { response :=
          { ok := false, tokensUsed := 0, artifacts := [],
            result := Jx.obj ([("verdict", Jx.str "error"),
              ("error", Jx.str errorDetail),
              ("url", Jx.str (fetch3mfFile cfg o.fetch artifact3mfUrl
                body.context.sessionId).url)]
              ++ optField "statusCode"
                ((fetch3mfFile cfg o.fetch artifact3mfUrl
                  body.context.sessionId).statusCode.map (fun n => Jx.num n))),
            error := some errorDetail }, cleaned := false }
      else
        match body.context.sessionId with
        | none => .error pathTypeErrorMsg  -- path.join with undefined throws
        | some sessionId =>
          -- `fetchResult.localPath!`: the non-null assertion; on this branch
          -- success is true so the path is present
          if (renderWithBlender o.fsExists
              (optStr (fetch3mfFile cfg o.fetch artifact3mfUrl
                body.context.sessionId).localPath)
              (pjoin (pjoin cfg.WORK_DIR sessionId) ("render_" ++ o.nowTag))
              DEFAULT_RENDER_VIEWS o.renderEvent).success = false
            ∨ (renderWithBlender o.fsExists
              (optStr (fetch3mfFile cfg o.fetch artifact3mfUrl
                body.context.sessionId).localPath)
              (pjoin (pjoin cfg.WORK_DIR sessionId) ("render_" ++ o.nowTag))
              DEFAULT_RENDER_VIEWS o.renderEvent).images.length = 0 then
            .ok { response :=
              { ok := false, tokensUsed := 0, artifacts := [],
                result := Jx.obj [("verdict", Jx.str "error"),
                  ("error", Jx.str "Rendering failed")],
                error := some "Rendering failed" }, cleaned := false }
          else
            let artifacts := (renderWithBlender o.fsExists
              (optStr (fetch3mfFile cfg o.fetch artifact3mfUrl
                body.context.sessionId).localPath)
              (pjoin (pjoin cfg.WORK_DIR sessionId) ("render_" ++ o.nowTag))
              DEFAULT_RENDER_VIEWS o.renderEvent).images.map (fun img =>
              ({ name := part ++ "_" ++ img.viewName ++ ".jpg", type := "image",
                 base64 := convertToJpeg o.img img.path none,
                 mimeType := "image/jpeg" } : PluginArtifact))
            match pickKey (body.apiKeys.bind (fun g => g.GEMINI_API_KEY))
              cfg.GEMINI_API_KEY with
            | some _ =>
              match o.gemini with
              | .error msg => .error msg
              | .ok (text, tokensUsed) =>
                .ok { response :=
                  { ok := true, tokensUsed := tokensUsed, artifacts := artifacts,
                    result := validateResultPayload (parseVisionResponse o.parse text) part,
                    error := none }, cleaned := true }
            | none =>
              match pickKey (body.apiKeys.bind (fun g => g.OPENAI_API_KEY))
                cfg.OPENAI_API_KEY with
              | some _ =>
                match o.openai with
                | .error msg => .error msg
                | .ok (text, tokensUsed) =>
                  .ok { response :=
                    { ok := true, tokensUsed := tokensUsed, artifacts := artifacts,
                      result := validateResultPayload (parseVisionResponse o.parse text) part,
                      error := none }, cleaned := true }
              | none =>
                .ok { response :=
                  { ok := false, tokensUsed := 0, artifacts := artifacts,
                    result := Jx.obj [("error", Jx.str "No vision API key provided")],
                    error := some "No vision API key provided" }, cleaned := false }

/-- The `/validate` handler: the `try` body with its `catch` converting any
exception into a failure envelope carrying the exception's message. -/
def runValidate (cfg : Config) (body : ValidationRequest) (o : VOracles) :
    HandlerOutput :=
  match validateTry cfg body o with
  | .ok out => out
  | .error msg => { response := errEnvelope msg, cleaned := false }

/-- The `try` block of the `/render` handler common to both service
variants, parametrized by the per-frame artifact encoding (`mkArtifact`)
and the artifact file extension used in the result payload. Nothing in this
body throws, so the `catch` arm of the wrapper is unreachable; it is kept
for shape fidelity. Numeric truthiness of `fetchResult.statusCode` (`0`
falsy) is not distinguished: settled HTTP statuses are never `0`. -/
def renderTryWith (mkArtifact : ImgEnv → String → RenderedImage → PluginArtifact)
    (ext : String) (cfg : Config) (body : RenderRequest) (o : ROracles) :
    Except String HandlerOutput :=
  -- `nr`, `fetchResult` and `renderResult` are pure values bound once in
  -- the source; they are written out at each use site here
  match getStr body.args.part with
  | none => .ok { response := errEnvelope "part is required", cleaned := false }
  | some part =>
    if (normalizeViews body.args.views).error.isSome = true
        ∨ (normalizeViews body.args.views).views.length = 0 then
      let msg := (normalizeViews body.args.views).error.getD
        ("views is required and must include at least one of: " ++ ALLOWED_VIEW_LIST)
      .ok { response :=
        { ok := false, tokensUsed := 0, artifacts := [],
          result := Jx.obj [("error", Jx.str msg),
            ("allowedViews", Jx.arr (ALLOWED_VIEWS.map Jx.str))],
          error := some msg }, cleaned := false }
    else
      match getStr body.context.artifact3mfUrl with
      | none => .ok { response := errEnvelope "artifact3mfUrl is required", cleaned := false }
      | some artifact3mfUrl =>
        match getStr body.context.sessionId with
        | none => .ok { response := errEnvelope "context.sessionId is required", cleaned := false }
        | some sessionId =>
          if (fetch3mfFile cfg o.fetch artifact3mfUrl (some sessionId)).success = false
              ∨ getStr (fetch3mfFile cfg o.fetch artifact3mfUrl
                  (some sessionId)).localPath = none then
            let errorDetail :=
              match (fetch3mfFile cfg o.fetch artifact3mfUrl (some sessionId)).statusCode with
              | some _ => "Failed to fetch 3MF: "
                  ++ optStr (fetch3mfFile cfg o.fetch artifact3mfUrl (some sessionId)).error
                  ++ " from " ++ (fetch3mfFile cfg o.fetch artifact3mfUrl (some sessionId)).url
              | none => "Failed to fetch 3MF: "
                  ++ (getStr (fetch3mfFile cfg o.fetch artifact3mfUrl
                      (some sessionId)).error).getD "unknown error"
                  ++ " from " ++ (fetch3mfFile cfg o.fetch artifact3mfUrl (some sessionId)).url
            .ok { response :=
              { ok := false, tokensUsed := 0, artifacts := [],
                result := Jx.obj ([("error", Jx.str errorDetail),
                  ("url", Jx.str (fetch3mfFile cfg o.fetch artifact3mfUrl
                    (some sessionId)).url)]
                  ++ optField "statusCode"
                    ((fetch3mfFile cfg o.fetch artifact3mfUrl
                      (some sessionId)).statusCode.map (fun n => Jx.num n))),
                error := some errorDetail }, cleaned := false }
          else
            if (renderWithBlender o.fsExists
                (optStr (fetch3mfFile cfg o.fetch artifact3mfUrl (some sessionId)).localPath)
                (pjoin (pjoin cfg.WORK_DIR sessionId) ("render_" ++ o.nowTag))
                (normalizeViews body.args.views).views o.renderEvent).success = false
              ∨ (renderWithBlender o.fsExists
                (optStr (fetch3mfFile cfg o.fetch artifact3mfUrl (some sessionId)).localPath)
                (pjoin (pjoin cfg.WORK_DIR sessionId) ("render_" ++ o.nowTag))
                (normalizeViews body.args.views).views o.renderEvent).images.length = 0 then
              .ok { response :=
                { ok := false, tokensUsed := 0, artifacts := [],
                  result := Jx.obj [("error", Jx.str "Rendering failed")],
                  error := some "Rendering failed" }, cleaned := false }
            else
              let artifacts := (renderWithBlender o.fsExists
                (optStr (fetch3mfFile cfg o.fetch artifact3mfUrl (some sessionId)).localPath)
                (pjoin (pjoin cfg.WORK_DIR sessionId) ("render_" ++ o.nowTag))
                (normalizeViews body.args.views).views o.renderEvent).images.map
                (fun img => mkArtifact o.img part img)
              let renderedViews := (renderWithBlender o.fsExists
                (optStr (fetch3mfFile cfg o.fetch artifact3mfUrl (some sessionId)).localPath)
                (pjoin (pjoin cfg.WORK_DIR sessionId) ("render_" ++ o.nowTag))
                (normalizeViews body.args.views).views o.renderEvent).images.map (fun img =>
                Jx.obj [("view", Jx.str img.viewName),
                        ("file", Jx.str (part ++ "_" ++ img.viewName ++ ext))])
              .ok { response :=
                { ok := true, tokensUsed := 0, artifacts := artifacts,
                  result := Jx.obj [("renderedViews", Jx.arr renderedViews),
                    ("part", Jx.str part),
                    ("viewsRequested", Jx.arr ((normalizeViews body.args.views).views.map Jx.str))],
                  error := none }, cleaned := true }

/-- Variant 1 (`/render` of the service that also offers `/validate`):
each frame is passed through `convertToJpeg(img.path, 300)` and labelled
`image/jpeg`. -/
def renderArtifact_v1 (env : ImgEnv) (part : String) (img : RenderedImage) :
    PluginArtifact :=
  { name := part ++ "_" ++ img.viewName ++ ".jpg", type := "image",
    base64 := convertToJpeg env img.path (some 300), mimeType := "image/jpeg" }

/-- Variant 2 (`/render` of the render-only service): each frame's raw file
bytes are read with `fs.readFileSync` and labelled `image/png`. -/
def renderArtifact_v2 (env : ImgEnv) (part : String) (img : RenderedImage) :
    PluginArtifact :=
  { name := part ++ "_" ++ img.viewName ++ ".png", type := "image",
    base64 := env.readFile img.path, mimeType := "image/png" }

/-- The `/render` handler of variant 1 (with `catch`). -/
def runRender_v1 (cfg : Config) (body : RenderRequest) (o : ROracles) :
    HandlerOutput :=
  match renderTryWith renderArtifact_v1 ".jpg" cfg body o with
  | .ok out => out
  | .error msg => { response := errEnvelope msg, cleaned := false }

/-- The `/render` handler of variant 2 (with `catch`). -/
def runRender_v2 (cfg : Config) (body : RenderRequest) (o : ROracles) :
    HandlerOutput :=
  match renderTryWith renderArtifact_v2 ".png" cfg body o with
  | .ok out => out
  | .error msg => { response := errEnvelope msg, cleaned := false }

/-! ## Authentication middleware and the wire response shape -/

/-- Outcome of `authenticateApiKey`: deny with an HTTP status and error
body, or call `next()`. -/
inductive AuthResult where
  | deny (status : Nat) (error : String)
  | proceed
deriving Repr, DecidableEq

/-- JavaScript `String.prototype.replace` with a string pattern: replace the
first occurrence (here: with the empty string, i.e. remove it). -/
def removeFirstOcc (pat : List Char) : List Char → List Char
  | [] => []
  | c :: rest =>
    if pat.isPrefixOf (c :: rest) then (c :: rest).drop pat.length
    else c :: removeFirstOcc pat rest

/-- The API-key authentication middleware. `/health` skips authentication;
a missing configured key is a 500; a missing provided key a 401; a mismatch
a 403. The provided key is `x-api-key` or, failing that, the `authorization`
header with its first `Bearer ` removed (an empty result is falsy and
counts as missing). -/
def authenticateApiKey (apiKeyCfg : Option String) (path : String)
    (xApiKey : Option String) (authorization : Option String) : AuthResult :=
  if path = "/health" then .proceed
  else
    match getStr apiKeyCfg with
    | none => .deny 500 "Server configuration error: API key not configured"
    | some key =>
      -- `providedKey` is a pure value bound once in the source, written out
      -- in scrutinee position here
      match (match getStr xApiKey with
             | some k => some k
             | none =>
               match authorization with
               | none => none
               | some a =>
                 getStr (some (String.mk (removeFirstOcc "Bearer ".data a.data)))) with
      | none => .deny 401 "Authentication required: Missing API key"
      | some provided =>
        if provided ≠ key then .deny 403 "Authentication failed: Invalid API key"
        else .proceed

/-- The JSON object shape actually put on the wire: optional fields are
absent (`none`) when the serialized object carries no such property. Auth
denials serialize only `ok` and `error`; handler envelopes serialize all
envelope fields. -/
structure WireResponse where
  status : Nat
  ok : Bool
  tokensUsed : Option Nat
  artifacts : Option (List PluginArtifact)
  result : Option Jx
  error : Option String

/-- Serialization of a handler envelope (`res.json(result)`, status 200). -/
def wireOfEnvelope (r : PluginResult) : WireResponse :=
  { status := 200, ok := r.ok, tokensUsed := some r.tokensUsed,
    artifacts := some r.artifacts, result := some r.result, error := r.error }

/-- Serialization of an auth denial (`res.status(st).json({ok:false,error})`). -/
def wireOfAuthDeny (status : Nat) (msg : String) : WireResponse :=
  { status := status, ok := false, tokensUsed := none,
    artifacts := none, result := none, error := some msg }

/-- The authentication-relevant request headers. -/
structure HttpHeaders where
  xApiKey : Option String
  authorization : Option String

/-- Full processing of a `POST /validate` request (variant 1 service):
auth middleware, then the handler. -/
def serveValidate (cfg : Config) (hdrs : HttpHeaders) (body : ValidationRequest)
    (o : VOracles) : WireResponse :=
  match authenticateApiKey cfg.API_KEY "/validate" hdrs.xApiKey hdrs.authorization with
  | .deny st msg => wireOfAuthDeny st msg
  | .proceed => wireOfEnvelope (runValidate cfg body o).response

/-- Full processing of a `POST /render` request (variant 1 service). -/
def serveRender_v1 (cfg : Config) (hdrs : HttpHeaders) (body : RenderRequest)
    (o : ROracles) : WireResponse :=
  match authenticateApiKey cfg.API_KEY "/render" hdrs.xApiKey hdrs.authorization with
  | .deny st msg => wireOfAuthDeny st msg
  | .proceed => wireOfEnvelope (runRender_v1 cfg body o).response

/-! ## Shared computation lemmas -/

theorem fetch3mfFile_ok (cfg : Config) {o : FetchOracle} (url sid : String)
    {fn : String} {r : FetchResponseEv} (hbase : o.urlBasename = some fn)
    (hev : o.event = .response r) (hok : r.ok = true) :
    fetch3mfFile cfg o url (some sid) =
      { success := true, localPath := some (pjoin (pjoin cfg.WORK_DIR sid) fn),
        error := none, url := url, statusCode := none } := by
  simp [fetch3mfFile, hbase, hev, hok]

theorem fetch3mfFile_httpFail {cfg : Config} {o : FetchOracle} {url fn : String}
    {sid : Option String} {r : FetchResponseEv} (hbase : o.urlBasename = some fn)
    (hev : o.event = .response r) (hok : r.ok = false) :
    fetch3mfFile cfg o url sid =
      { success := false, localPath := none,
        error := some ("HTTP " ++ toString r.status ++ " " ++ r.statusText),
        url := url, statusCode := some r.status } := by
  simp [fetch3mfFile, hbase, hev, hok]

theorem fetch3mfFile_exception {cfg : Config} {o : FetchOracle} {url fn msg : String}
    {sid : Option String} (hbase : o.urlBasename = some fn)
    (hev : o.event = .exception msg) :
    fetch3mfFile cfg o url sid =
      { success := false, localPath := none, error := some msg,
        url := url, statusCode := none } := by
  simp [fetch3mfFile, hbase, hev]

theorem fetch3mfFile_noSession (cfg : Config) {o : FetchOracle} (url : String)
    {fn : String} {r : FetchResponseEv} (hbase : o.urlBasename = some fn)
    (hev : o.event = .response r) (hok : r.ok = true) :
    fetch3mfFile cfg o url none =
      { success := false, localPath := none, error := some pathTypeErrorMsg,
        url := url, statusCode := none } := by
  simp [fetch3mfFile, hbase, hev, hok]

theorem renderWithBlender_timedOut (fsExists : String → Bool)
    (model outputDir : String) (views : List String) :
    (renderWithBlender fsExists model outputDir views .timedOut).success = false ∧
    (renderWithBlender fsExists model outputDir views .timedOut).images = [] := by
  by_cases h : fsExists model = false <;> simp [renderWithBlender, h]

theorem renderWithBlender_timedOut_killed {fsExists : String → Bool}
    {model : String} (outputDir : String) (views : List String)
    (hmodel : fsExists model = true) :
    (renderWithBlender fsExists model outputDir views .timedOut).killSignal
      = some "SIGTERM" := by
  simp [renderWithBlender, hmodel]

theorem renderWithBlender_closed {fsExists : String → Bool} {model : String}
    (outputDir : String) (views : List String) (code : Int)
    (hmodel : fsExists model = true) :
    renderWithBlender fsExists model outputDir views (.closed code) =
      { killSignal := none,
        success := decide (0 < ((views.map (fun view =>
          ({ name := "preview_" ++ view ++ ".png",
             path := expectedImagePath outputDir view,
             viewName := view } : RenderedImage))).filter
            (fun img => fsExists img.path)).length),
        images := (views.map (fun view =>
          ({ name := "preview_" ++ view ++ ".png",
             path := expectedImagePath outputDir view,
             viewName := view } : RenderedImage))).filter
          (fun img => fsExists img.path) } := by
  simp [renderWithBlender, hmodel]

/-! ## Claim theorems: the render supervisor -/

/-- C3: For every render invocation in which the engine process exits (with
any exit code), the outcome's success flag is true iff at least one expected
output file `preview_<view>.png` exists for some requested view; the exit
code has no influence; and the frames are exactly the requested views whose
expected file exists, in requested-view order. -/
theorem renderWithBlender_close_contract (fsExists : String → Bool)
    (model3mfPath outputDir : String) (views : List String) (code : Int)
    (hmodel : fsExists model3mfPath = true) :
    ((renderWithBlender fsExists model3mfPath outputDir views (.closed code)).success = true
      ↔ ∃ v ∈ views, fsExists (expectedImagePath outputDir v) = true) ∧
    (∀ code₂ : Int,
      renderWithBlender fsExists model3mfPath outputDir views (.closed code₂)
        = renderWithBlender fsExists model3mfPath outputDir views (.closed code)) ∧
    ((renderWithBlender fsExists model3mfPath outputDir views (.closed code)).images
      = (views.filter (fun v => fsExists (expectedImagePath outputDir v))).map
          (fun v => ({ name := "preview_" ++ v ++ ".png",
                       path := expectedImagePath outputDir v,
                       viewName := v } : RenderedImage))) := by
  have himg : ((views.map (fun view =>
      ({ name := "preview_" ++ view ++ ".png",
         path := expectedImagePath outputDir view,
         viewName := view } : RenderedImage))).filter (fun img => fsExists img.path))
      = (views.filter (fun v => fsExists (expectedImagePath outputDir v))).map
          (fun v => ({ name := "preview_" ++ v ++ ".png",
                       path := expectedImagePath outputDir v,
                       viewName := v } : RenderedImage)) := by
    rw [List.filter_map]
    rfl
  refine ⟨?_, ?_, ?_⟩
  · rw [renderWithBlender_closed outputDir views code hmodel]
    simp only [himg, decide_eq_true_eq, List.length_map]
    rw [List.length_pos]
    simp [List.filter_eq_nil_iff]
  · intro code₂
    rw [renderWithBlender_closed outputDir views code hmodel,
      renderWithBlender_closed outputDir views code₂ hmodel]
  · rw [renderWithBlender_closed outputDir views code hmodel]
    exact himg

/-- Witness for `renderWithBlender_close_contract`: exit code 1 with exactly
one of two requested views present on disk gives success and that single
frame. -/
theorem renderWithBlender_close_contract_witness :
    ((renderWithBlender (fun p => p == "model.3mf" || p == "out/preview_front.png")
        "model.3mf" "out" ["iso", "front"] (.closed 1)).success = true
      ↔ ∃ v ∈ ["iso", "front"],
          (fun p => p == "model.3mf" || p == "out/preview_front.png")
            (expectedImagePath "out" v) = true) ∧
    ((renderWithBlender (fun p => p == "model.3mf" || p == "out/preview_front.png")
        "model.3mf" "out" ["iso", "front"] (.closed 1)).images.map (fun img => img.viewName)
      = ["front"]) := by
  have h := renderWithBlender_close_contract
    (fun p => p == "model.3mf" || p == "out/preview_front.png") "model.3mf" "out"
    ["iso", "front"] 1 (by decide)
  refine ⟨h.1, ?_⟩
  rw [h.2.2]
  decide

/-- C4: For every render invocation in which the 300-second timeout fires
before the engine process exits, the spawned process is signaled with
`SIGTERM` and the outcome is success=false with zero frames; the
orchestrator consequently answers with a success=false envelope whose error
is exactly `Rendering failed`. -/
theorem renderTimeout_contract (cfg : Config) (body : ValidationRequest) (o : VOracles)
    (part url sid fn : String) (r : FetchResponseEv)
    (hpart : getStr body.args.part = some part)
    (hurl : getStr body.context.artifact3mfUrl = some url)
    (hsid : body.context.sessionId = some sid)
    (hbase : o.fetch.urlBasename = some fn)
    (hev : o.fetch.event = .response r) (hok : r.ok = true)
    (hto : o.renderEvent = .timedOut) :
    (∀ model outputDir views, o.fsExists model = true →
      (renderWithBlender o.fsExists model outputDir views .timedOut).killSignal
          = some "SIGTERM" ∧
      (renderWithBlender o.fsExists model outputDir views .timedOut).success = false ∧
      (renderWithBlender o.fsExists model outputDir views .timedOut).images = []) ∧
    (runValidate cfg body o).response =
      { ok := false, tokensUsed := 0, artifacts := [],
        result := Jx.obj [("verdict", Jx.str "error"),
          ("error", Jx.str "Rendering failed")],
        error := some "Rendering failed" } := by
  constructor
  · intro model outputDir views hmodel
    exact ⟨renderWithBlender_timedOut_killed outputDir views hmodel,
      (renderWithBlender_timedOut o.fsExists model outputDir views).1,
      (renderWithBlender_timedOut o.fsExists model outputDir views).2⟩
  · have hfetch := fetch3mfFile_ok cfg url sid hbase hev hok
    have hrun := renderWithBlender_timedOut o.fsExists
      (optStr (some (pjoin (pjoin cfg.WORK_DIR sid) fn)))
      (pjoin (pjoin cfg.WORK_DIR sid) ("render_" ++ o.nowTag)) DEFAULT_RENDER_VIEWS
    simp only [runValidate, validateTry, hpart, hurl, hsid, hfetch, hto]
    rw [if_neg (by simp)]
    rw [if_pos (Or.inl hrun.1)]

/-- Concrete configuration fixture for witnesses. -/
def cfgFix : Config :=
  { WORK_DIR := "/tmp/vision-validate", API_KEY := some "k",
    BACKEND_API_KEY := none, OPENAI_API_KEY := some "envopenai",
    GEMINI_API_KEY := none }

/-- Concrete `/validate` request fixture for witnesses. -/
def vbodyFix : ValidationRequest :=
  { context := { sessionId := some "s1", artifact3mfUrl := some "http://a/m.3mf",
                 step := none },
    args := { part := some "bracket", partDescription := none, focus := none,
              checks := none },
    apiKeys := none }

/-- Concrete `/validate` oracle fixture in which the render step times out. -/
def oTimeoutFix : VOracles :=
  { fetch := { urlBasename := some "m.3mf",
               event := .response { ok := true, status := 200, statusText := "OK" } },
    fsExists := fun _ => true, renderEvent := .timedOut,
    img := { readFile := fun _ => [], sharpJpeg := fun _ _ => none },
    gemini := .ok ("", 0), openai := .ok ("", 0), parse := fun _ => none,
    nowTag := "t0", rmThrows := false }

/-- Witness for `renderTimeout_contract` at a fully concrete request. -/
theorem renderTimeout_contract_witness :
    (runValidate cfgFix vbodyFix oTimeoutFix).response.error
      = some "Rendering failed" := by
  rw [(renderTimeout_contract cfgFix vbodyFix oTimeoutFix "bracket" "http://a/m.3mf"
    "s1" "m.3mf" { ok := true, status := 200, statusText := "OK" }
    rfl rfl rfl rfl rfl rfl rfl).2]

/-! ## Claim theorems: the artifact fetcher -/

theorem errDetail_split (e url : String) :
    "Failed to fetch 3MF: " ++ e ++ " from " ++ url
      = "Failed to fetch 3MF" ++ (": " ++ e ++ " from " ++ url) := by
  simp only [String.append_assoc]
  rfl

theorem fetch3mfFile_url (cfg : Config) (o : FetchOracle) (url : String)
    (sid : Option String) : (fetch3mfFile cfg o url sid).url = url := by
  rcases o with ⟨ub, ev⟩
  cases ub with
  | none => rfl
  | some fn =>
    cases ev with
    | exception msg => rfl
    | response r =>
      cases hok : r.ok
      · simp [fetch3mfFile, hok]
      · cases sid <;> simp [fetch3mfFile, hok]

theorem fetch3mfFile_noSession_fail (cfg : Config) (o : FetchOracle) (url : String) :
    (fetch3mfFile cfg o url none).success = false := by
  rcases o with ⟨ub, ev⟩
  cases ub with
  | none => rfl
  | some fn =>
    cases ev with
    | exception msg => rfl
    | response r => cases hok : r.ok <;> simp [fetch3mfFile, hok]

/-- C6: For every artifact fetch, a non-success transport response yields a
failure outcome carrying the status code and status text, while a
lower-level transport exception yields a failure outcome carrying the
exception message and no status code; the fetcher never raises (it is a
total function). End to end, an HTTP 404 on the artifact URL produces an
envelope with success=false, an error containing `Failed to fetch`, and a
result payload whose `statusCode` field equals 404. -/
theorem fetchFailure_contract (cfg : Config) (o : FetchOracle) (url fn : String)
    (sid : Option String) (hbase : o.urlBasename = some fn) :
    (∀ r : FetchResponseEv, o.event = .response r → r.ok = false →
      fetch3mfFile cfg o url sid =
        { success := false, localPath := none,
          error := some ("HTTP " ++ toString r.status ++ " " ++ r.statusText),
          url := url, statusCode := some r.status }) ∧
    (∀ msg, o.event = .exception msg →
      fetch3mfFile cfg o url sid =
        { success := false, localPath := none, error := some msg,
          url := url, statusCode := none }) ∧
    (∀ (body : ValidationRequest) (vo : VOracles) (part : String),
      getStr body.args.part = some part →
      getStr body.context.artifact3mfUrl = some url →
      vo.fetch = o →
      o.event = .response { ok := false, status := 404, statusText := "Not Found" } →
      (runValidate cfg body vo).response.ok = false ∧
      (∃ rest, (runValidate cfg body vo).response.error
        = some ("Failed to fetch" ++ rest)) ∧
      jGet (runValidate cfg body vo).response.result "statusCode"
        = some (Jx.num 404)) := by
  refine ⟨?_, ?_, ?_⟩
  · intro r hev hok
    exact fetch3mfFile_httpFail hbase hev hok
  · intro msg hev
    exact fetch3mfFile_exception hbase hev
  · intro body vo part hpart hurl hvo hev
    have hfetch : fetch3mfFile cfg vo.fetch url body.context.sessionId =
        { success := false, localPath := none,
          error := some ("HTTP 404 Not Found"),
          url := url, statusCode := some 404 } := by
      rw [hvo]
      exact fetch3mfFile_httpFail hbase hev rfl
    simp only [runValidate, validateTry, hpart, hurl, hfetch]
    rw [if_pos trivial]
    refine ⟨rfl, ?_, ?_⟩
    · refine ⟨" 3MF: " ++ optStr (some "HTTP 404 Not Found") ++ " from " ++ url, ?_⟩
      simp only [optStr, String.append_assoc]
      rfl
    · simp [jGet, optField, List.lookup, optStr]

/-- Witness for `fetchFailure_contract`: the 404 scenario at a concrete
request. -/
theorem fetchFailure_contract_witness :
    (runValidate cfgFix vbodyFix
      { fetch := { urlBasename := some "m.3mf",
                   event := .response { ok := false, status := 404,
                                        statusText := "Not Found" } },
        fsExists := fun _ => true, renderEvent := .closed 0,
        img := { readFile := fun _ => [], sharpJpeg := fun _ _ => none },
        gemini := .ok ("", 0), openai := .ok ("", 0), parse := fun _ => none,
        nowTag := "t0", rmThrows := false }).response.ok = false ∧
    jGet (runValidate cfgFix vbodyFix
      { fetch := { urlBasename := some "m.3mf",
                   event := .response { ok := false, status := 404,
                                        statusText := "Not Found" } },
        fsExists := fun _ => true, renderEvent := .closed 0,
        img := { readFile := fun _ => [], sharpJpeg := fun _ _ => none },
        gemini := .ok ("", 0), openai := .ok ("", 0), parse := fun _ => none,
        nowTag := "t0", rmThrows := false }).response.result "statusCode"
      = some (Jx.num 404) := by
  have h := (fetchFailure_contract cfgFix
    { urlBasename := some "m.3mf",
      event := .response { ok := false, status := 404, statusText := "Not Found" } }
    "http://a/m.3mf" "m.3mf" (some "s1") rfl).2.2 vbodyFix
    { fetch := { urlBasename := some "m.3mf",
                 event := .response { ok := false, status := 404,
                                      statusText := "Not Found" } },
      fsExists := fun _ => true, renderEvent := .closed 0,
      img := { readFile := fun _ => [], sharpJpeg := fun _ _ => none },
      gemini := .ok ("", 0), openai := .ok ("", 0), parse := fun _ => none,
      nowTag := "t0", rmThrows := false } "bracket" rfl rfl rfl rfl
  exact ⟨h.1, h.2.2⟩

/-! ## Claim theorems: credential selection and input checks -/

/-- C9: For every Validate request in which fetch and render succeed but no
vision-backend credential is available (neither per-request nor ambient, for
either backend), the operation returns an envelope with success=false,
error exactly `No vision API key provided`, tokensUsed 0, and the artifacts
list still populated with the images produced by the successful render
step. -/
theorem noVisionKey_contract (cfg : Config) (body : ValidationRequest) (o : VOracles)
    (part url sid fn : String) (r : FetchResponseEv) (code : Int)
    (hpart : getStr body.args.part = some part)
    (hurl : getStr body.context.artifact3mfUrl = some url)
    (hsid : body.context.sessionId = some sid)
    (hbase : o.fetch.urlBasename = some fn)
    (hev : o.fetch.event = .response r) (hok : r.ok = true)
    (hcode : o.renderEvent = .closed code)
    (hmodel : o.fsExists (pjoin (pjoin cfg.WORK_DIR sid) fn) = true)
    (hframe : ∃ v ∈ DEFAULT_RENDER_VIEWS,
      o.fsExists (expectedImagePath
        (pjoin (pjoin cfg.WORK_DIR sid) ("render_" ++ o.nowTag)) v) = true)
    (hreqo : getStr (body.apiKeys.bind (fun g => g.OPENAI_API_KEY)) = none)
    (hreqg : getStr (body.apiKeys.bind (fun g => g.GEMINI_API_KEY)) = none)
    (henvo : getStr cfg.OPENAI_API_KEY = none)
    (henvg : getStr cfg.GEMINI_API_KEY = none) :
    (runValidate cfg body o).response.ok = false ∧
    (runValidate cfg body o).response.error = some "No vision API key provided" ∧
    (runValidate cfg body o).response.tokensUsed = 0 ∧
    (runValidate cfg body o).response.artifacts =
      (renderWithBlender o.fsExists (pjoin (pjoin cfg.WORK_DIR sid) fn)
        (pjoin (pjoin cfg.WORK_DIR sid) ("render_" ++ o.nowTag))
        DEFAULT_RENDER_VIEWS (.closed code)).images.map (fun img =>
          ({ name := part ++ "_" ++ img.viewName ++ ".jpg", type := "image",
             base64 := convertToJpeg o.img img.path none,
             mimeType := "image/jpeg" } : PluginArtifact)) ∧
    (runValidate cfg body o).response.artifacts ≠ [] := by
  have hfetch := fetch3mfFile_ok cfg url sid hbase hev hok
  have hC := renderWithBlender_close_contract o.fsExists
    (pjoin (pjoin cfg.WORK_DIR sid) fn)
    (pjoin (pjoin cfg.WORK_DIR sid) ("render_" ++ o.nowTag))
    DEFAULT_RENDER_VIEWS code hmodel
  have hsuc : (renderWithBlender o.fsExists (pjoin (pjoin cfg.WORK_DIR sid) fn)
      (pjoin (pjoin cfg.WORK_DIR sid) ("render_" ++ o.nowTag))
      DEFAULT_RENDER_VIEWS (.closed code)).success = true := hC.1.mpr hframe
  have himgs : (renderWithBlender o.fsExists (pjoin (pjoin cfg.WORK_DIR sid) fn)
      (pjoin (pjoin cfg.WORK_DIR sid) ("render_" ++ o.nowTag))
      DEFAULT_RENDER_VIEWS (.closed code)).images ≠ [] := by
    rw [hC.2.2]
    simp only [ne_eq, List.map_eq_nil_iff, List.filter_eq_nil_iff]
    push_neg
    obtain ⟨v, hv, hfs⟩ := hframe
    exact ⟨v, hv, by simp [hfs]⟩
  have hkg : pickKey (body.apiKeys.bind (fun g => g.GEMINI_API_KEY))
      cfg.GEMINI_API_KEY = none := by
    simp [pickKey, hreqg, henvg]
  have hko : pickKey (body.apiKeys.bind (fun g => g.OPENAI_API_KEY))
      cfg.OPENAI_API_KEY = none := by
    simp [pickKey, hreqo, henvo]
  simp only [runValidate, validateTry, hpart, hurl, hsid, hfetch, hcode, optStr]
  rw [if_neg (by simp)]
  rw [if_neg (by
    rintro (hbad | hbad)
    · rw [hsuc] at hbad; exact Bool.noConfusion hbad
    · exact himgs (List.length_eq_zero.mp hbad))]
  rw [hkg, hko]
  exact ⟨rfl, rfl, rfl, rfl, by
    intro hbad
    apply himgs
    exact List.map_eq_nil_iff.mp hbad⟩

/-- Concrete `/validate` oracle fixture: fetch and render succeed, no vision
credential anywhere. -/
def oNoKeyFix : VOracles :=
  { fetch := { urlBasename := some "m.3mf",
               event := .response { ok := true, status := 200, statusText := "OK" } },
    fsExists := fun _ => true, renderEvent := .closed 0,
    img := { readFile := fun _ => [7, 7], sharpJpeg := fun _ _ => some [1, 2] },
    gemini := .ok ("", 0), openai := .ok ("", 0), parse := fun _ => none,
    nowTag := "t0", rmThrows := false }

/-- Concrete configuration with no ambient vision credentials. -/
def cfgNoKeyFix : Config :=
  { WORK_DIR := "/tmp/vision-validate", API_KEY := some "k",
    BACKEND_API_KEY := none, OPENAI_API_KEY := none, GEMINI_API_KEY := none }

/-- Witness for `noVisionKey_contract` at a fully concrete request. -/
theorem noVisionKey_contract_witness :
    (runValidate cfgNoKeyFix vbodyFix oNoKeyFix).response.error
      = some "No vision API key provided" ∧
    (runValidate cfgNoKeyFix vbodyFix oNoKeyFix).response.artifacts ≠ [] := by
  have h := noVisionKey_contract cfgNoKeyFix vbodyFix oNoKeyFix "bracket"
    "http://a/m.3mf" "s1" "m.3mf" { ok := true, status := 200, statusText := "OK" } 0
    rfl rfl rfl rfl rfl rfl rfl rfl ⟨"iso", by decide, rfl⟩ rfl rfl rfl rfl
  exact ⟨h.2.1, h.2.2.2.2⟩

/-- C10: The Validate operation checks only the part name and artifact URL
before performing I/O and never validates the session id: with a non-empty
part and artifact URL but an absent session id, the pipeline proceeds to
the fetch step (for every network behaviour the fetch outcome is a failure)
and the missing session id surfaces as a fetch-failure envelope —
success=false with an error beginning `Failed to fetch 3MF` — never as an
input-validation error naming the session id; on a transport-successful
fetch the error carries Node's `path.join` type error for the undefined
session id. -/
theorem missingSession_contract (cfg : Config) (body : ValidationRequest) (o : VOracles)
    (part url : String)
    (hpart : getStr body.args.part = some part)
    (hurl : getStr body.context.artifact3mfUrl = some url)
    (hsid : body.context.sessionId = none) :
    (runValidate cfg body o).response.ok = false ∧
    (∃ rest, (runValidate cfg body o).response.error
      = some ("Failed to fetch 3MF" ++ rest)) ∧
    (runValidate cfg body o).response.error ≠ some "context.sessionId is required" ∧
    (∀ fn r, o.fetch.urlBasename = some fn → o.fetch.event = .response r →
      r.ok = true →
      (runValidate cfg body o).response.error
        = some ("Failed to fetch 3MF: " ++ pathTypeErrorMsg ++ " from " ++ url)) := by
  have hsucc : (fetch3mfFile cfg o.fetch url none).success = false :=
    fetch3mfFile_noSession_fail cfg o.fetch url
  have hurl2 : (fetch3mfFile cfg o.fetch url none).url = url :=
    fetch3mfFile_url cfg o.fetch url none
  have hred : (runValidate cfg body o).response =
      { ok := false, tokensUsed := 0, artifacts := [],
        result := Jx.obj ([("verdict", Jx.str "error"),
          ("error", Jx.str ("Failed to fetch 3MF: "
            ++ optStr (fetch3mfFile cfg o.fetch url none).error ++ " from "
            ++ (fetch3mfFile cfg o.fetch url none).url)),
          ("url", Jx.str (fetch3mfFile cfg o.fetch url none).url)]
          ++ optField "statusCode"
            ((fetch3mfFile cfg o.fetch url none).statusCode.map (fun n => Jx.num n))),
        error := some ("Failed to fetch 3MF: "
          ++ optStr (fetch3mfFile cfg o.fetch url none).error ++ " from "
          ++ (fetch3mfFile cfg o.fetch url none).url) } := by
    simp only [runValidate, validateTry, hpart, hurl, hsid]
    rw [if_pos hsucc]
  refine ⟨?_, ?_, ?_, ?_⟩
  · rw [hred]
  · refine ⟨": " ++ optStr (fetch3mfFile cfg o.fetch url none).error ++ " from "
      ++ (fetch3mfFile cfg o.fetch url none).url, ?_⟩
    rw [hred]
    simp only [Option.some.injEq]
    exact errDetail_split _ _
  · rw [hred]
    simp only [ne_eq, Option.some.injEq]
    intro hbad
    have hd := congrArg (fun s => s.data.head?) hbad
    simp only [String.data_append] at hd
    simp at hd
  · intro fn r hbase hev hok
    have hfe := fetch3mfFile_noSession cfg url hbase hev hok
    rw [hred]
    simp only [hfe, optStr]

/-- Witness for `missingSession_contract` at a fully concrete request with a
transport-successful fetch. -/
theorem missingSession_contract_witness :
    (runValidate cfgFix
      { context := { sessionId := none, artifact3mfUrl := some "http://a/m.3mf",
                     step := none },
        args := { part := some "bracket", partDescription := none, focus := none,
                  checks := none },
        apiKeys := none }
      oTimeoutFix).response.error
      = some ("Failed to fetch 3MF: " ++ pathTypeErrorMsg ++ " from http://a/m.3mf") := by
  have h := (missingSession_contract cfgFix
    { context := { sessionId := none, artifact3mfUrl := some "http://a/m.3mf",
                   step := none },
      args := { part := some "bracket", partDescription := none, focus := none,
                checks := none },
      apiKeys := none }
    oTimeoutFix "bracket" "http://a/m.3mf" rfl rfl rfl).2.2.2 "m.3mf"
    { ok := true, status := 200, statusText := "OK" } rfl rfl rfl
  rw [h]
  simp [String.append_assoc]

/-! ## Success-path reduction lemmas -/

theorem ne_empty_of_left (a b : String) (h : a ≠ "") : a ++ b ≠ "" := by
  intro hbad
  apply h
  have hd := congrArg String.data hbad
  rw [String.data_append] at hd
  rcases List.append_eq_nil.mp hd with ⟨h1, -⟩
  exact String.ext h1

theorem ne_empty_of_right (a b : String) (h : b ≠ "") : a ++ b ≠ "" := by
  intro hbad
  apply h
  have hd := congrArg String.data hbad
  rw [String.data_append] at hd
  rcases List.append_eq_nil.mp hd with ⟨-, h2⟩
  exact String.ext h2

theorem pjoin_ne_empty (a b : String) : pjoin a b ≠ "" := by
  rw [pjoin]
  exact ne_empty_of_left (a ++ "/") b (ne_empty_of_right a "/" (by decide))

theorem getStr_pjoin (a b : String) : getStr (some (pjoin a b)) = some (pjoin a b) := by
  simp [getStr, pjoin_ne_empty]

theorem renderTryWith_success
    (mkArtifact : ImgEnv → String → RenderedImage → PluginArtifact) (ext : String)
    (cfg : Config) (body : RenderRequest) (o : ROracles)
    (part url sid fn : String) (r : FetchResponseEv) (code : Int) (vs : List String)
    (hpart : getStr body.args.part = some part)
    (hnr : normalizeViews body.args.views = { views := vs, error := none })
    (hvs : vs ≠ [])
    (hurl : getStr body.context.artifact3mfUrl = some url)
    (hsid : getStr body.context.sessionId = some sid)
    (hbase : o.fetch.urlBasename = some fn)
    (hev : o.fetch.event = .response r) (hok : r.ok = true)
    (hcode : o.renderEvent = .closed code)
    (hmodel : o.fsExists (pjoin (pjoin cfg.WORK_DIR sid) fn) = true)
    (hframe : ∃ v ∈ vs, o.fsExists (expectedImagePath
      (pjoin (pjoin cfg.WORK_DIR sid) ("render_" ++ o.nowTag)) v) = true) :
    renderTryWith mkArtifact ext cfg body o = .ok
      { response :=
          { ok := true, tokensUsed := 0,
            artifacts := (renderWithBlender o.fsExists (pjoin (pjoin cfg.WORK_DIR sid) fn)
              (pjoin (pjoin cfg.WORK_DIR sid) ("render_" ++ o.nowTag)) vs
              (.closed code)).images.map (fun img => mkArtifact o.img part img),
            result := Jx.obj [("renderedViews",
                Jx.arr ((renderWithBlender o.fsExists (pjoin (pjoin cfg.WORK_DIR sid) fn)
                  (pjoin (pjoin cfg.WORK_DIR sid) ("render_" ++ o.nowTag)) vs
                  (.closed code)).images.map (fun img =>
                    Jx.obj [("view", Jx.str img.viewName),
                            ("file", Jx.str (part ++ "_" ++ img.viewName ++ ext))]))),
              ("part", Jx.str part), ("viewsRequested", Jx.arr (vs.map Jx.str))],
            error := none },
        cleaned := true } := by
  have hfetch := fetch3mfFile_ok cfg url sid hbase hev hok
  have hC := renderWithBlender_close_contract o.fsExists
    (pjoin (pjoin cfg.WORK_DIR sid) fn)
    (pjoin (pjoin cfg.WORK_DIR sid) ("render_" ++ o.nowTag)) vs code hmodel
  have hsuc := hC.1.mpr hframe
  have himgs : (renderWithBlender o.fsExists (pjoin (pjoin cfg.WORK_DIR sid) fn)
      (pjoin (pjoin cfg.WORK_DIR sid) ("render_" ++ o.nowTag)) vs
      (.closed code)).images ≠ [] := by
    rw [hC.2.2]
    simp only [ne_eq, List.map_eq_nil_iff, List.filter_eq_nil_iff]
    push_neg
    obtain ⟨v, hv, hfs⟩ := hframe
    exact ⟨v, hv, by simp [hfs]⟩
  simp only [renderTryWith, hpart, hnr, hurl, hsid, hfetch, hcode, optStr]
  rw [if_neg (by simp [List.length_eq_zero, hvs])]
  rw [if_neg (by
    rintro (hbad | hbad)
    · simp at hbad
    · rw [getStr_pjoin] at hbad; exact Option.noConfusion hbad)]
  rw [if_neg (by
    rintro (hbad | hbad)
    · rw [hsuc] at hbad; exact Bool.noConfusion hbad
    · exact himgs (List.length_eq_zero.mp hbad))]

theorem validateTry_success (cfg : Config) (body : ValidationRequest) (o : VOracles)
    (part url sid fn gk text : String) (r : FetchResponseEv) (code : Int) (tokens : Nat)
    (hpart : getStr body.args.part = some part)
    (hurl : getStr body.context.artifact3mfUrl = some url)
    (hsid : body.context.sessionId = some sid)
    (hbase : o.fetch.urlBasename = some fn)
    (hev : o.fetch.event = .response r) (hok : r.ok = true)
    (hcode : o.renderEvent = .closed code)
    (hmodel : o.fsExists (pjoin (pjoin cfg.WORK_DIR sid) fn) = true)
    (hframe : ∃ v ∈ DEFAULT_RENDER_VIEWS, o.fsExists (expectedImagePath
      (pjoin (pjoin cfg.WORK_DIR sid) ("render_" ++ o.nowTag)) v) = true)
    (hkg : pickKey (body.apiKeys.bind (fun g => g.GEMINI_API_KEY))
      cfg.GEMINI_API_KEY = some gk)
    (hgem : o.gemini = .ok (text, tokens)) :
    validateTry cfg body o = .ok
      { response :=
          { ok := true, tokensUsed := tokens,
            artifacts := (renderWithBlender o.fsExists (pjoin (pjoin cfg.WORK_DIR sid) fn)
              (pjoin (pjoin cfg.WORK_DIR sid) ("render_" ++ o.nowTag))
              DEFAULT_RENDER_VIEWS (.closed code)).images.map (fun img =>
                ({ name := part ++ "_" ++ img.viewName ++ ".jpg", type := "image",
                   base64 := convertToJpeg o.img img.path none,
                   mimeType := "image/jpeg" } : PluginArtifact)),
            result := validateResultPayload (parseVisionResponse o.parse text) part,
            error := none },
        cleaned := true } := by
  have hfetch := fetch3mfFile_ok cfg url sid hbase hev hok
  have hC := renderWithBlender_close_contract o.fsExists
    (pjoin (pjoin cfg.WORK_DIR sid) fn)
    (pjoin (pjoin cfg.WORK_DIR sid) ("render_" ++ o.nowTag))
    DEFAULT_RENDER_VIEWS code hmodel
  have hsuc := hC.1.mpr hframe
  have himgs : (renderWithBlender o.fsExists (pjoin (pjoin cfg.WORK_DIR sid) fn)
      (pjoin (pjoin cfg.WORK_DIR sid) ("render_" ++ o.nowTag))
      DEFAULT_RENDER_VIEWS (.closed code)).images ≠ [] := by
    rw [hC.2.2]
    simp only [ne_eq, List.map_eq_nil_iff, List.filter_eq_nil_iff]
    push_neg
    obtain ⟨v, hv, hfs⟩ := hframe
    exact ⟨v, hv, by simp [hfs]⟩
  simp only [validateTry, hpart, hurl, hsid, hfetch, hcode, optStr]
  rw [if_neg (by simp)]
  rw [if_neg (by
    rintro (hbad | hbad)
    · rw [hsuc] at hbad; exact Bool.noConfusion hbad
    · exact himgs (List.length_eq_zero.mp hbad))]
  rw [hkg, hgem]

/-! ## Claim theorems: artifact encodings (C7) -/

/-- Concrete `/render` request fixture. -/
def rbodyFix : RenderRequest :=
  { context := { sessionId := some "s1", artifact3mfUrl := some "http://a/m.3mf",
                 step := none },
    args := { part := some "bracket", views := some ["iso"] } }

/-- Concrete `/render` oracle fixture: fetch and render succeed, `sharp` is
available and returns `[1, 2]`, while the raw file bytes are `[7, 7]`. -/
def oRenderFix : ROracles :=
  { fetch := { urlBasename := some "m.3mf",
               event := .response { ok := true, status := 200, statusText := "OK" } },
    fsExists := fun _ => true, renderEvent := .closed 0,
    img := { readFile := fun _ => [7, 7], sharpJpeg := fun _ _ => some [1, 2] },
    nowTag := "t0", rmThrows := false }

/-- Counterexample to C7 as stated: in the service variant that also offers
Validate, a successful RenderPreview request yields artifacts whose bytes
are the `sharp`-compressed 300-pixel JPEG output (`[1, 2]`), not the
uncompressed original-format bytes of the rendered frame (`[7, 7]`); the
MIME type is `image/jpeg`, not the original `image/png`. -/
theorem renderPreview_compressed_cex :
    (runRender_v1 cfgFix rbodyFix oRenderFix).response.ok = true ∧
    (runRender_v1 cfgFix rbodyFix oRenderFix).response.artifacts.map
        (fun a => (a.base64, a.mimeType))
      = [([1, 2], "image/jpeg")] ∧
    oRenderFix.img.readFile
        (expectedImagePath (pjoin (pjoin cfgFix.WORK_DIR "s1") "render_t0") "iso")
      = [7, 7] ∧
    ([1, 2] : Bytes) ≠ [7, 7] := by
  exact ⟨rfl, rfl, rfl, by decide⟩

/-- C7 amended: RenderPreview's artifact encoding differs between the two
service variants — the render-only variant returns the uncompressed
original-format (`image/png`) bytes read straight from disk, while the
variant that also offers Validate passes each frame through the 300-pixel
JPEG conversion; the Validate operation's artifacts carry the full-size
JPEG conversion of the same frames. -/
theorem artifactEncoding_contract (cfg : Config) (body : RenderRequest) (o : ROracles)
    (part url sid fn : String) (r : FetchResponseEv) (code : Int) (vs : List String)
    (hpart : getStr body.args.part = some part)
    (hnr : normalizeViews body.args.views = { views := vs, error := none })
    (hvs : vs ≠ [])
    (hurl : getStr body.context.artifact3mfUrl = some url)
    (hsid : getStr body.context.sessionId = some sid)
    (hbase : o.fetch.urlBasename = some fn)
    (hev : o.fetch.event = .response r) (hok : r.ok = true)
    (hcode : o.renderEvent = .closed code)
    (hmodel : o.fsExists (pjoin (pjoin cfg.WORK_DIR sid) fn) = true)
    (hframe : ∃ v ∈ vs, o.fsExists (expectedImagePath
      (pjoin (pjoin cfg.WORK_DIR sid) ("render_" ++ o.nowTag)) v) = true) :
    (runRender_v2 cfg body o).response.artifacts
      = (renderWithBlender o.fsExists (pjoin (pjoin cfg.WORK_DIR sid) fn)
          (pjoin (pjoin cfg.WORK_DIR sid) ("render_" ++ o.nowTag)) vs
          (.closed code)).images.map (fun img =>
            ({ name := part ++ "_" ++ img.viewName ++ ".png", type := "image",
               base64 := o.img.readFile img.path,
               mimeType := "image/png" } : PluginArtifact)) ∧
    (runRender_v1 cfg body o).response.artifacts
      = (renderWithBlender o.fsExists (pjoin (pjoin cfg.WORK_DIR sid) fn)
          (pjoin (pjoin cfg.WORK_DIR sid) ("render_" ++ o.nowTag)) vs
          (.closed code)).images.map (fun img =>
            ({ name := part ++ "_" ++ img.viewName ++ ".jpg", type := "image",
               base64 := convertToJpeg o.img img.path (some 300),
               mimeType := "image/jpeg" } : PluginArtifact)) ∧
    (∀ (vbody : ValidationRequest) (vo : VOracles) (gk text : String) (tokens : Nat),
      getStr vbody.args.part = some part →
      getStr vbody.context.artifact3mfUrl = some url →
      vbody.context.sessionId = some sid →
      vo.fetch = o.fetch → vo.fsExists = o.fsExists → vo.renderEvent = .closed code →
      vo.nowTag = o.nowTag →
      pickKey (vbody.apiKeys.bind (fun g => g.GEMINI_API_KEY))
        cfg.GEMINI_API_KEY = some gk →
      vo.gemini = .ok (text, tokens) →
      (∃ v ∈ DEFAULT_RENDER_VIEWS, o.fsExists (expectedImagePath
        (pjoin (pjoin cfg.WORK_DIR sid) ("render_" ++ o.nowTag)) v) = true) →
      (runValidate cfg vbody vo).response.artifacts
        = (renderWithBlender o.fsExists (pjoin (pjoin cfg.WORK_DIR sid) fn)
            (pjoin (pjoin cfg.WORK_DIR sid) ("render_" ++ o.nowTag))
            DEFAULT_RENDER_VIEWS (.closed code)).images.map (fun img =>
              ({ name := part ++ "_" ++ img.viewName ++ ".jpg", type := "image",
                 base64 := convertToJpeg vo.img img.path none,
                 mimeType := "image/jpeg" } : PluginArtifact))) := by
  refine ⟨?_, ?_, ?_⟩
  · rw [runRender_v2, renderTryWith_success renderArtifact_v2 ".png" cfg body o
      part url sid fn r code vs hpart hnr hvs hurl hsid hbase hev hok hcode hmodel hframe]
    rfl
  · rw [runRender_v1, renderTryWith_success renderArtifact_v1 ".jpg" cfg body o
      part url sid fn r code vs hpart hnr hvs hurl hsid hbase hev hok hcode hmodel hframe]
    rfl
  · intro vbody vo gk text tokens hp2 hu2 hs2 hf2 hfs2 hrc2 hnt2 hkg2 hgem2 hframe2
    rw [runValidate, validateTry_success cfg vbody vo part url sid fn gk text r code
      tokens hp2 hu2 hs2 (by rw [hf2]; exact hbase) (by rw [hf2]; exact hev) hok hrc2
      (by rw [hfs2]; exact hmodel) (by rw [hfs2, hnt2]; exact hframe2) hkg2 hgem2]
    rw [hfs2, hnt2]

/-- Witness for `artifactEncoding_contract` at a fully concrete request:
the raw-PNG variant returns `[7, 7]` (`image/png`), the converting variant
`[1, 2]` (`image/jpeg`). -/
theorem artifactEncoding_contract_witness :
    (runRender_v2 cfgFix rbodyFix oRenderFix).response.artifacts.map
        (fun a => (a.base64, a.mimeType))
      = [([7, 7], "image/png")] ∧
    (runRender_v1 cfgFix rbodyFix oRenderFix).response.artifacts.map
        (fun a => (a.base64, a.mimeType))
      = [([1, 2], "image/jpeg")] := by
  have h := artifactEncoding_contract cfgFix rbodyFix oRenderFix "bracket"
    "http://a/m.3mf" "s1" "m.3mf" { ok := true, status := 200, statusText := "OK" } 0
    ["iso"] rfl (by decide) (by decide) rfl rfl rfl rfl rfl rfl rfl
    ⟨"iso", by decide, rfl⟩
  constructor
  · rw [h.1]; rfl
  · rw [h.2.1]; rfl

/-! ## Claim theorems: cleanup (C8) -/

/-- Concrete `/validate` oracle fixture: fetch succeeds, the geometry file
exists, the engine exits but produces no output files. -/
def oRenderFailFix : VOracles :=
  { fetch := { urlBasename := some "m.3mf",
               event := .response { ok := true, status := 200, statusText := "OK" } },
    fsExists := fun p => p == "/tmp/vision-validate/s1/m.3mf",
    renderEvent := .closed 0,
    img := { readFile := fun _ => [], sharpJpeg := fun _ _ => none },
    gemini := .ok ("", 0), openai := .ok ("", 0), parse := fun _ => none,
    nowTag := "t0", rmThrows := false }

/-- Counterexample to C8 as stated: two `/validate` executions that reach
the render step and fail afterwards — one at the render step itself, one
for want of a vision credential after a fully successful render — both
compose their failure response without attempting removal of the render
output directory (`cleaned = false`). -/
theorem cleanup_skipped_cex :
    (runValidate cfgFix vbodyFix oRenderFailFix).response.error
      = some "Rendering failed" ∧
    (runValidate cfgFix vbodyFix oRenderFailFix).cleaned = false ∧
    (runValidate cfgNoKeyFix vbodyFix oNoKeyFix).response.error
      = some "No vision API key provided" ∧
    (runValidate cfgNoKeyFix vbodyFix oNoKeyFix).response.artifacts ≠ [] ∧
    (runValidate cfgNoKeyFix vbodyFix oNoKeyFix).cleaned = false := by
  exact ⟨rfl, rfl, rfl, by decide, rfl⟩

/-- C8 amended: the session's render output directory is removed, on a
best-effort basis and after the response is composed, only when the
operation succeeds end to end; failure paths — including those that already
ran the render step — return without attempting the removal; and the
outcome of the removal (`fs.rmSync` throwing or not) never changes any
response. -/
theorem cleanup_contract :
    (∀ (cfg : Config) (body : ValidationRequest) (o : VOracles) (b₁ b₂ : Bool),
      runValidate cfg body { o with rmThrows := b₁ }
        = runValidate cfg body { o with rmThrows := b₂ }) ∧
    (∀ (cfg : Config) (body : RenderRequest) (o : ROracles) (b₁ b₂ : Bool),
      runRender_v1 cfg body { o with rmThrows := b₁ }
        = runRender_v1 cfg body { o with rmThrows := b₂ } ∧
      runRender_v2 cfg body { o with rmThrows := b₁ }
        = runRender_v2 cfg body { o with rmThrows := b₂ }) ∧
    (∀ (cfg : Config) (body : ValidationRequest) (o : VOracles)
      (part url sid fn gk text : String) (r : FetchResponseEv) (code : Int)
      (tokens : Nat),
      getStr body.args.part = some part →
      getStr body.context.artifact3mfUrl = some url →
      body.context.sessionId = some sid →
      o.fetch.urlBasename = some fn →
      o.fetch.event = .response r → r.ok = true →
      o.renderEvent = .closed code →
      o.fsExists (pjoin (pjoin cfg.WORK_DIR sid) fn) = true →
      (∃ v ∈ DEFAULT_RENDER_VIEWS, o.fsExists (expectedImagePath
        (pjoin (pjoin cfg.WORK_DIR sid) ("render_" ++ o.nowTag)) v) = true) →
      pickKey (body.apiKeys.bind (fun g => g.GEMINI_API_KEY))
        cfg.GEMINI_API_KEY = some gk →
      o.gemini = .ok (text, tokens) →
      (runValidate cfg body o).response.ok = true ∧
      (runValidate cfg body o).cleaned = true) ∧
    (∀ (cfg : Config) (body : RenderRequest) (o : ROracles)
      (part url sid fn : String) (r : FetchResponseEv) (code : Int) (vs : List String),
      getStr body.args.part = some part →
      normalizeViews body.args.views = { views := vs, error := none } →
      vs ≠ [] →
      getStr body.context.artifact3mfUrl = some url →
      getStr body.context.sessionId = some sid →
      o.fetch.urlBasename = some fn →
      o.fetch.event = .response r → r.ok = true →
      o.renderEvent = .closed code →
      o.fsExists (pjoin (pjoin cfg.WORK_DIR sid) fn) = true →
      (∃ v ∈ vs, o.fsExists (expectedImagePath
        (pjoin (pjoin cfg.WORK_DIR sid) ("render_" ++ o.nowTag)) v) = true) →
      (runRender_v1 cfg body o).cleaned = true ∧
      (runRender_v2 cfg body o).cleaned = true) ∧
    (∀ (cfg : Config) (body : ValidationRequest) (o : VOracles)
      (part url sid fn : String) (r : FetchResponseEv),
      getStr body.args.part = some part →
      getStr body.context.artifact3mfUrl = some url →
      body.context.sessionId = some sid →
      o.fetch.urlBasename = some fn →
      o.fetch.event = .response r → r.ok = true →
      o.renderEvent = .timedOut →
      (runValidate cfg body o).response.error = some "Rendering failed" ∧
      (runValidate cfg body o).cleaned = false) := by
  refine ⟨?_, ?_, ?_, ?_, ?_⟩
  · intro cfg body o b₁ b₂
    rcases o with ⟨f, fs, re, im, g, oa, p, nt, rm⟩
    rfl
  · intro cfg body o b₁ b₂
    rcases o with ⟨f, fs, re, im, nt, rm⟩
    exact ⟨rfl, rfl⟩
  · intro cfg body o part url sid fn gk text r code tokens hpart hurl hsid hbase hev
      hok hcode hmodel hframe hkg hgem
    rw [runValidate, validateTry_success cfg body o part url sid fn gk text r code
      tokens hpart hurl hsid hbase hev hok hcode hmodel hframe hkg hgem]
    exact ⟨rfl, rfl⟩
  · intro cfg body o part url sid fn r code vs hpart hnr hvs hurl hsid hbase hev hok
      hcode hmodel hframe
    constructor
    · rw [runRender_v1, renderTryWith_success renderArtifact_v1 ".jpg" cfg body o
        part url sid fn r code vs hpart hnr hvs hurl hsid hbase hev hok hcode hmodel hframe]
    · rw [runRender_v2, renderTryWith_success renderArtifact_v2 ".png" cfg body o
        part url sid fn r code vs hpart hnr hvs hurl hsid hbase hev hok hcode hmodel hframe]
  · intro cfg body o part url sid fn r hpart hurl hsid hbase hev hok hto
    have hfetch := fetch3mfFile_ok cfg url sid hbase hev hok
    have hrun := renderWithBlender_timedOut o.fsExists
      (optStr (some (pjoin (pjoin cfg.WORK_DIR sid) fn)))
      (pjoin (pjoin cfg.WORK_DIR sid) ("render_" ++ o.nowTag)) DEFAULT_RENDER_VIEWS
    constructor <;>
      (simp only [runValidate, validateTry, hpart, hurl, hsid, hfetch, hto]
       rw [if_neg (by simp)]
       rw [if_pos (Or.inl hrun.1)])

/-- Concrete configuration with an ambient Gemini credential. -/
def cfgGemFix : Config :=
  { WORK_DIR := "/tmp/vision-validate", API_KEY := some "k",
    BACKEND_API_KEY := none, OPENAI_API_KEY := none, GEMINI_API_KEY := some "g" }

/-- Concrete `/validate` oracle fixture for a fully successful run. -/
def oVisionFix : VOracles :=
  { fetch := { urlBasename := some "m.3mf",
               event := .response { ok := true, status := 200, statusText := "OK" } },
    fsExists := fun _ => true, renderEvent := .closed 0,
    img := { readFile := fun _ => [7, 7], sharpJpeg := fun _ _ => some [1, 2] },
    gemini := .ok ("all good", 5), openai := .ok ("", 0), parse := fun _ => none,
    nowTag := "t0", rmThrows := false }

/-- Witness for `cleanup_contract`: a fully successful concrete validation
run attempts the cleanup, and flipping the `rmSync` outcome leaves the
response unchanged. -/
theorem cleanup_contract_witness :
    (runValidate cfgGemFix vbodyFix oVisionFix).response.ok = true ∧
    (runValidate cfgGemFix vbodyFix oVisionFix).cleaned = true ∧
    runValidate cfgGemFix vbodyFix { oVisionFix with rmThrows := true }
      = runValidate cfgGemFix vbodyFix { oVisionFix with rmThrows := false } := by
  have h := cleanup_contract.2.2.1 cfgGemFix vbodyFix oVisionFix "bracket"
    "http://a/m.3mf" "s1" "m.3mf" "g" "all good"
    { ok := true, status := 200, statusText := "OK" } 0 5
    rfl rfl rfl rfl rfl rfl rfl rfl ⟨"iso", by decide, rfl⟩ rfl rfl
  exact ⟨h.1, h.2, cleanup_contract.1 cfgGemFix vbodyFix oVisionFix true false⟩

/-! ## Claim theorems: the envelope invariant (C1) -/

theorem normalizeViews_error_ne_empty (req : Option (List String)) :
    ∀ e, (normalizeViews req).error = some e → e ≠ "" := by
  intro e h
  rcases req with _ | l
  · simp only [normalizeViews] at h
    injection h with h
    subst h
    decide
  · simp only [normalizeViews] at h
    split at h
    · injection h with h
      subst h
      decide
    · split at h
      · injection h with h
        subst h
        decide
      · exact absurd h (by simp)

theorem viewMsg_ne_empty (req : Option (List String)) :
    (normalizeViews req).error.getD
      ("views is required and must include at least one of: " ++ ALLOWED_VIEW_LIST)
      ≠ "" := by
  cases hno : (normalizeViews req).error with
  | none => decide
  | some e => simpa using normalizeViews_error_ne_empty req e hno

theorem validateTry_err_nonempty (cfg : Config) (body : ValidationRequest)
    (o : VOracles)
    (hg : ∀ m, o.gemini = .error m → m ≠ "")
    (ho : ∀ m, o.openai = .error m → m ≠ "") :
    (∀ out, validateTry cfg body o = .ok out → out.response.ok = false →
      ∃ e, out.response.error = some e ∧ e ≠ "") ∧
    (∀ msg, validateTry cfg body o = .error msg → msg ≠ "") := by
  unfold validateTry
  constructor
  · intro out hout hok
    repeat' split at hout
    all_goals cases hout
    all_goals try simp at hok
    all_goals refine ⟨_, rfl, ?_⟩
    all_goals try decide
    exact ne_empty_of_left _ _ (ne_empty_of_left _ _ (ne_empty_of_left _ _ (by decide)))
  · intro msg hout
    repeat' split at hout
    all_goals cases hout
    all_goals try decide
    · exact hg _ (by assumption)
    · exact ho _ (by assumption)

theorem renderTryWith_err_nonempty
    (mkArtifact : ImgEnv → String → RenderedImage → PluginArtifact) (ext : String)
    (cfg : Config) (body : RenderRequest) (o : ROracles) :
    (∀ out, renderTryWith mkArtifact ext cfg body o = .ok out →
      out.response.ok = false → ∃ e, out.response.error = some e ∧ e ≠ "") ∧
    (∀ msg, renderTryWith mkArtifact ext cfg body o ≠ .error msg) := by
  unfold renderTryWith
  constructor
  · intro out hout hok
    repeat' split at hout
    all_goals cases hout
    all_goals try simp at hok
    all_goals refine ⟨_, rfl, ?_⟩
    all_goals try decide
    all_goals first
      | exact viewMsg_ne_empty body.args.views
      | exact ne_empty_of_left _ _ (ne_empty_of_left _ _ (ne_empty_of_left _ _ (by decide)))
  · intro msg hout
    repeat' split at hout
    all_goals cases hout

theorem runValidate_err_nonempty (cfg : Config) (body : ValidationRequest)
    (o : VOracles)
    (hg : ∀ m, o.gemini = .error m → m ≠ "")
    (ho : ∀ m, o.openai = .error m → m ≠ "") :
    (runValidate cfg body o).response.ok = false →
    ∃ e, (runValidate cfg body o).response.error = some e ∧ e ≠ "" := by
  intro hok
  have h := validateTry_err_nonempty cfg body o hg ho
  cases htry : validateTry cfg body o with
  | error msg =>
    rw [runValidate, htry]
    exact ⟨msg, rfl, h.2 msg htry⟩
  | ok out =>
    rw [runValidate, htry] at hok ⊢
    exact h.1 out htry hok

theorem runRender_v1_err_nonempty (cfg : Config) (body : RenderRequest)
    (o : ROracles) :
    (runRender_v1 cfg body o).response.ok = false →
    ∃ e, (runRender_v1 cfg body o).response.error = some e ∧ e ≠ "" := by
  intro hok
  have h := renderTryWith_err_nonempty renderArtifact_v1 ".jpg" cfg body o
  cases htry : renderTryWith renderArtifact_v1 ".jpg" cfg body o with
  | error msg => exact absurd htry (h.2 msg)
  | ok out =>
    rw [runRender_v1, htry] at hok ⊢
    exact h.1 out htry hok

theorem runRender_v2_err_nonempty (cfg : Config) (body : RenderRequest)
    (o : ROracles) :
    (runRender_v2 cfg body o).response.ok = false →
    ∃ e, (runRender_v2 cfg body o).response.error = some e ∧ e ≠ "" := by
  intro hok
  have h := renderTryWith_err_nonempty renderArtifact_v2 ".png" cfg body o
  cases htry : renderTryWith renderArtifact_v2 ".png" cfg body o with
  | error msg => exact absurd htry (h.2 msg)
  | ok out =>
    rw [runRender_v2, htry] at hok ⊢
    exact h.1 out htry hok

theorem authenticateApiKey_deny_msg (k : Option String) (p : String)
    (x a : Option String) (st : Nat) (msg : String)
    (h : authenticateApiKey k p x a = .deny st msg) : msg ≠ "" := by
  unfold authenticateApiKey at h
  repeat' split at h
  all_goals cases h
  all_goals decide

/-- The wire response carries a non-empty error string. -/
def nonEmptyErr (w : WireResponse) : Prop :=
  ∃ e, w.error = some e ∧ e ≠ ""

/-- The wire response serializes every `ResultEnvelope` field: token-usage
count, artifact list, result payload (plus the always-present success
flag). -/
def completeEnvelope (w : WireResponse) : Prop :=
  w.tokensUsed.isSome = true ∧ w.artifacts.isSome = true ∧ w.result.isSome = true

/-- Counterexample to C1 as stated: an authentication failure (configured
key, request without one) is answered with success=false and a non-empty
error, but the serialized response carries no token-usage count, artifact
list, or result payload — it is not a complete `ResultEnvelope`. -/
theorem envelope_auth_cex :
    (serveValidate cfgFix { xApiKey := none, authorization := none }
      vbodyFix oTimeoutFix).ok = false ∧
    (serveValidate cfgFix { xApiKey := none, authorization := none }
      vbodyFix oTimeoutFix).error = some "Authentication required: Missing API key" ∧
    (serveValidate cfgFix { xApiKey := none, authorization := none }
      vbodyFix oTimeoutFix).status = 401 ∧
    (serveValidate cfgFix { xApiKey := none, authorization := none }
      vbodyFix oTimeoutFix).tokensUsed = none ∧
    (serveValidate cfgFix { xApiKey := none, authorization := none }
      vbodyFix oTimeoutFix).artifacts = none ∧
    (serveValidate cfgFix { xApiKey := none, authorization := none }
      vbodyFix oTimeoutFix).result = none :=
  ⟨rfl, rfl, rfl, rfl, rfl, rfl⟩

/-- C1 amended: every request to either public operation is answered — no
failure escapes the orchestrator boundary (the serving functions are
total). Every response with success=false carries a non-empty error; for
requests that pass authentication the response is a complete
`ResultEnvelope` (success flag, token-usage count, artifact list, result
payload). Authentication failures, however, are answered with only the
success flag and a non-empty error. The exception-message hypotheses state
that the vision backends never throw an `Error` whose message is the empty
string. -/
theorem envelope_contract (cfg : Config) (hdrs : HttpHeaders)
    (vbody : ValidationRequest) (rbody : RenderRequest)
    (vo : VOracles) (ro : ROracles)
    (hg : ∀ m, vo.gemini = .error m → m ≠ "")
    (ho : ∀ m, vo.openai = .error m → m ≠ "") :
    ((serveValidate cfg hdrs vbody vo).ok = false →
      nonEmptyErr (serveValidate cfg hdrs vbody vo)) ∧
    ((serveRender_v1 cfg hdrs rbody ro).ok = false →
      nonEmptyErr (serveRender_v1 cfg hdrs rbody ro)) ∧
    (authenticateApiKey cfg.API_KEY "/validate" hdrs.xApiKey hdrs.authorization
        = .proceed →
      completeEnvelope (serveValidate cfg hdrs vbody vo)) ∧
    (authenticateApiKey cfg.API_KEY "/render" hdrs.xApiKey hdrs.authorization
        = .proceed →
      completeEnvelope (serveRender_v1 cfg hdrs rbody ro)) ∧
    ((runRender_v2 cfg rbody ro).response.ok = false →
      ∃ e, (runRender_v2 cfg rbody ro).response.error = some e ∧ e ≠ "") := by
  refine ⟨?_, ?_, ?_, ?_, runRender_v2_err_nonempty cfg rbody ro⟩
  · intro hok
    cases hauth : authenticateApiKey cfg.API_KEY "/validate" hdrs.xApiKey
        hdrs.authorization with
    | deny st msg =>
      rw [serveValidate, hauth]
      exact ⟨msg, rfl, authenticateApiKey_deny_msg _ _ _ _ _ _ hauth⟩
    | proceed =>
      rw [serveValidate, hauth] at hok ⊢
      exact runValidate_err_nonempty cfg vbody vo hg ho hok
  · intro hok
    cases hauth : authenticateApiKey cfg.API_KEY "/render" hdrs.xApiKey
        hdrs.authorization with
    | deny st msg =>
      rw [serveRender_v1, hauth]
      exact ⟨msg, rfl, authenticateApiKey_deny_msg _ _ _ _ _ _ hauth⟩
    | proceed =>
      rw [serveRender_v1, hauth] at hok ⊢
      exact runRender_v1_err_nonempty cfg rbody ro hok
  · intro hauth
    rw [serveValidate, hauth]
    exact ⟨rfl, rfl, rfl⟩
  · intro hauth
    rw [serveRender_v1, hauth]
    exact ⟨rfl, rfl, rfl⟩

/-- Witness for `envelope_contract`: an authenticated request whose body is
missing the part name yields a complete envelope with success=false and the
non-empty error `part is required`. -/
theorem envelope_contract_witness :
    nonEmptyErr (serveValidate cfgFix { xApiKey := some "k", authorization := none }
      { context := { sessionId := some "s1", artifact3mfUrl := some "http://a/m.3mf",
                     step := none },
        args := { part := none, partDescription := none, focus := none,
                  checks := none },
        apiKeys := none }
      oTimeoutFix) ∧
    completeEnvelope (serveValidate cfgFix { xApiKey := some "k", authorization := none }
      { context := { sessionId := some "s1", artifact3mfUrl := some "http://a/m.3mf",
                     step := none },
        args := { part := none, partDescription := none, focus := none,
                  checks := none },
        apiKeys := none }
      oTimeoutFix) := by
  have h := envelope_contract cfgFix { xApiKey := some "k", authorization := none }
    { context := { sessionId := some "s1", artifact3mfUrl := some "http://a/m.3mf",
                   step := none },
      args := { part := none, partDescription := none, focus := none,
                checks := none },
      apiKeys := none }
    rbodyFix oTimeoutFix oRenderFix
    (fun m hm => by cases hm) (fun m hm => by cases hm)
  exact ⟨h.1 rfl, h.2.2.1 rfl⟩

end VisionValidate
